import Mathlib

/-!
Verification of the multi-backend relational storage layer of the
`homesfy-tech/honesty-chat` repository (apps/api/src/storage, apps/api/src/db),
as a shallow embedding in Lean 4.

The embedding models:
* JSON values as they flow through the JavaScript stores (`Json`), with
  `JSON.stringify` (`Json.stringify`) and `JSON.parse` (`parseJson`) modelled as
  executable functions over character lists, and the proved codec round-trip;
* the per-entity stores (Lead, ChatSession, Event, User) of both the PostgreSQL
  and the MySQL backend, translated function by function from the source files;
* the connection managers (`connectPostgreSQL`/`connectMySQL`, `getPool`,
  `query`) as explicit state passing over an optional pool;
* the schema bootstrapper (`initializeSchema`) with the repository's
  `schema.sql` text embedded verbatim.

Machine integers do not matter here (JavaScript numbers in the modelled code
are ids, counts and pagination bounds, far below 2^53), so numbers are
modelled as `Nat`/`Int`. JSON numbers are modelled as integers: every numeric
literal the stores themselves produce (ids, timestamps) is integral.
-/
/-! ### JSON values

`Json` models the JavaScript values that can sit in a JSON-valued column:
`null`, booleans, (integral) numbers, strings, arrays and objects. A JS value
whose `typeof` is `'string'` is exactly a `Json.str`. -/
inductive Json where
  | null
  | bool (b : Bool)
  | num (n : Int)
  | str (s : String)
  | arr (elems : List Json)
  | obj (members : List (String × Json))
deriving Repr, Inhabited

/-- JavaScript truthiness of a value, as used by the stores' `x || default`
defaulting idiom: `null`, `false`, `0` and `""` are falsy. -/
def jsTruthy : Json → Bool
  | .null => false
  | .bool b => b
  | .num n => n != 0
  | .str s => s ≠ ""
  | .arr _ => true
  | .obj _ => true

/-- `v || d` on JS values where `v` may also be absent (`undefined`). -/
def jsOr (v : Option Json) (d : Json) : Json :=
  match v with
  | some x => if jsTruthy x then x else d
  | none => d

/-! ### `JSON.stringify`, modelled

The serializer produces the compact output of `JSON.stringify` (no whitespace),
over character lists. String escaping covers the quote, the backslash and the
common control characters `\n`, `\t`, `\r`; other characters are emitted
verbatim. -/
/-- JSON escape of one character, per `JSON.stringify`. -/
def escChar (c : Char) : List Char :=
  if c = '"' then ['\\', '"']
  else if c = '\\' then ['\\', '\\']
  else if c = '\n' then ['\\', 'n']
  else if c = '\t' then ['\\', 't']
  else if c = '\r' then ['\\', 'r']
  else [c]

/-- Digit character for `d ≤ 9`. -/
def digChar (d : Nat) : Char :=
  Char.ofNat (48 + d % 10)

/-- Decimal digit characters of a natural number, most significant first. -/
def natChars (n : Nat) : List Char :=
  if n = 0 then ['0'] else ((Nat.digits 10 n).map digChar).reverse

/-- Decimal rendering of an integer: optional minus sign, then digits. -/
def intChars (i : Int) : List Char :=
  if i < 0 then '-' :: natChars i.natAbs else natChars i.natAbs

/-- The serialized body of a string (escaped characters, no quotes). -/
def escBody (cs : List Char) : List Char := cs.flatMap escChar

mutual

/-- `JSON.stringify`, as a character list. -/
def Json.stringifyChars : Json → List Char
  | .num i => intChars i
  | .str s => '"' :: (escBody s.toList ++ ['"'])
  | .arr vs => '[' :: (Json.stringifyItems vs ++ [']'])
  | .obj fs => '{' :: (Json.stringifyMembers fs ++ ['}'])
  | .bool false => ['f', 'a', 'l', 's', 'e']
  | .bool true => ['t', 'r', 'u', 'e']
  | .null => ['n', 'u', 'l', 'l']
termination_by structural v => v

/-- Comma-separated serialized array elements. -/
def Json.stringifyItems : List Json → List Char
  | [] => []
  | [v] => Json.stringifyChars v
  | v :: vs => Json.stringifyChars v ++ ',' :: Json.stringifyItems vs
termination_by structural vs => vs

/-- Comma-separated serialized object members (`"key":value`). -/
def Json.stringifyMembers : List (String × Json) → List Char
  | [] => []
  | [(k, v)] => '"' :: (escBody k.toList ++ ['"']) ++ ':' :: Json.stringifyChars v
  | (k, v) :: fs =>
    '"' :: (escBody k.toList ++ ['"']) ++ ':' :: Json.stringifyChars v
      ++ ',' :: Json.stringifyMembers fs
termination_by structural fs => fs

end

/-- `JSON.stringify` as a `String`, the form the stores pass to the driver. -/
def Json.stringify (v : Json) : String := String.mk v.stringifyChars

/-! ### `JSON.parse`, modelled

A fuel-indexed recursive-descent parser over character lists. It accepts the
compact output of the serializer above (`JSON.parse` of course accepts more --
interstitial whitespace in particular -- but the stores only ever parse driver
text that originated from `JSON.stringify`, which emits none). A failed parse
is `none`, modelling the exception `JSON.parse` throws. -/
/-- Is `c` a decimal digit? -/
def isDig (c : Char) : Bool := 48 ≤ c.toNat && c.toNat ≤ 57

/-- Numeric value of a digit character. -/
def digitVal (c : Char) : Nat := c.toNat - 48

/-- Split off the longest leading run of digit characters. -/
def grabDigits : List Char → List Char × List Char
  | [] => ([], [])
  | c :: cs =>
    if isDig c then
      let p := grabDigits cs
      (c :: p.1, p.2)
    else ([], c :: cs)

/-- Value of a digit run, most significant digit first. -/
def digitsToNat (ds : List Char) : Nat :=
  ds.foldl (fun a c => a * 10 + digitVal c) 0

/-- Inverse of `escChar` on the character after a backslash. -/
def unescChar : Char → Option Char
  | '"' => some '"'
  | '\\' => some '\\'
  | 'n' => some '\n'
  | 't' => some '\t'
  | 'r' => some '\r'
  | _ => none

/-- Scan a string body up to the closing quote, undoing escapes. -/
def scanStr : List Char → Option (List Char × List Char)
  | [] => none
  | c :: cs =>
    if c = '"' then some ([], cs)
    else if c = '\\' then
      match cs with
      | [] => none
      | e :: cs2 =>
        match unescChar e with
        | none => none
        | some u => (scanStr cs2).map (fun p => (u :: p.1, p.2))
    else (scanStr cs).map (fun p => (c :: p.1, p.2))

mutual

/-- One JSON value, by recursive descent; `fuel` bounds the recursion depth. -/
def parseJsonF : Nat → List Char → Option (Json × List Char)
  | 0, _ => none
  | fuel + 1, cs =>
    match cs with
    | [] => none
    | c :: cs1 =>
      if c = 'n' then
        match cs1 with
        | 'u' :: 'l' :: 'l' :: r => some (.null, r)
        | _ => none
      else if c = 't' then
        match cs1 with
        | 'r' :: 'u' :: 'e' :: r => some (.bool true, r)
        | _ => none
      else if c = 'f' then
        match cs1 with
        | 'a' :: 'l' :: 's' :: 'e' :: r => some (.bool false, r)
        | _ => none
      else if c = '"' then
        (scanStr cs1).map (fun p => (Json.str (String.mk p.1), p.2))
      else if c = '[' then
        match cs1 with
        | [] => none
        | c2 :: r =>
          if c2 = ']' then some (.arr [], r)
          else (parseItemsF fuel (c2 :: r)).map (fun p => (Json.arr p.1, p.2))
      else if c = '{' then
        match cs1 with
        | [] => none
        | c2 :: r =>
          if c2 = '}' then some (.obj [], r)
          else (parseMembersF fuel (c2 :: r)).map (fun p => (Json.obj p.1, p.2))
      else if c = '-' then
        match grabDigits cs1 with
        | ([], _) => none
        | (run, r) => some (.num (-(digitsToNat run : Int)), r)
      else if isDig c then
        match grabDigits (c :: cs1) with
        | (run, r) => some (.num ((digitsToNat run : Int)), r)
      else none

/-- One or more comma-separated array elements, consuming the closing `]`. -/
def parseItemsF : Nat → List Char → Option (List Json × List Char)
  | 0, _ => none
  | fuel + 1, cs =>
    match parseJsonF fuel cs with
    | none => none
    | some (v, r) =>
      match r with
      | ',' :: r2 => (parseItemsF fuel r2).map (fun p => (v :: p.1, p.2))
      | ']' :: r2 => some ([v], r2)
      | _ => none

/-- One or more comma-separated object members, consuming the closing `}`. -/
def parseMembersF : Nat → List Char → Option (List (String × Json) × List Char)
  | 0, _ => none
  | fuel + 1, cs =>
    match cs with
    | '"' :: r =>
      match scanStr r with
      | none => none
      | some (k, r1) =>
        match r1 with
        | ':' :: r2 =>
          match parseJsonF fuel r2 with
          | none => none
          | some (v, r3) =>
            match r3 with
            | ',' :: r4 =>
              (parseMembersF fuel r4).map (fun p => ((String.mk k, v) :: p.1, p.2))
            | '}' :: r4 => some ([(String.mk k, v)], r4)
            | _ => none
        | _ => none
    | _ => none

end

/-- `JSON.parse` on a whole string: the parse must consume every character. -/
def parseJson (s : String) : Option Json :=
  match parseJsonF (s.toList.length + 1) s.toList with
  | some (v, []) => some v
  | _ => none

/-- Read-side JSON normalization used by every store:
`typeof row.x === 'string' ? JSON.parse(row.x) : row.x`. A JS value of type
`'string'` is parsed (possibly throwing, hence `Option`); any other value is
returned unchanged. -/
def normalizeField : Json → Option Json
  | .str s => parseJson s
  | v => some v

/-- Character lists an extracted number may be followed by: empty, or headed
by a non-digit (every JSON delimiter qualifies). -/
def digitSafe : List Char → Bool
  | [] => true
  | c :: _ => !isDig c

mutual

/-- Fuel needed by `parseJsonF` to traverse a value. -/
def wVal : Json → Nat
  | .arr vs => 1 + wItems vs
  | .obj fs => 1 + wMembers fs
  | _ => 1
termination_by structural v => v

/-- Fuel needed by `parseItemsF` for a list of elements. -/
def wItems : List Json → Nat
  | [] => 0
  | v :: vs => 1 + wVal v + wItems vs
termination_by structural vs => vs

/-- Fuel needed by `parseMembersF` for a list of members. -/
def wMembers : List (String × Json) → Nat
  | m :: fs => 1 + wVal m.2 + wMembers fs
  | [] => 0
termination_by structural fs => fs

end

/-! ### Driver and SQL semantics shared by the stores

Rows store JSON columns as their serialized text (what the store wrote).
`DriverJson` captures how a driver hands a JSON column back to JavaScript:
`pg` parses `JSONB` columns and `mysql2` parses `JSON` columns (`.parses`);
`.rawText` models a driver returning the raw column text (the case the
stores' defensive `typeof === 'string'` normalization exists for). -/
inductive DriverJson where
  | parses
  | rawText
deriving DecidableEq, Repr

/-- What JavaScript receives for a JSON column whose stored text is `s`.
Store-written text always originates from `JSON.stringify`, so the `.parses`
fallback (driver hands the text through when it cannot parse it) is
unreachable on store-written rows. -/
def driverRead (mode : DriverJson) (s : String) : Json :=
  match mode with
  | .parses => (parseJson s).getD (Json.str s)
  | .rawText => Json.str s

/-- A JavaScript value as it may arrive in `filters.limit` / `filters.skip`. -/
inductive JsIn where
  | absent
  | nullv
  | num (n : Int)
  | str (s : String)
deriving DecidableEq, Repr

/-- `Number(x)` with `none` for `NaN`. Non-integral numeric strings are outside
the model (the modelled call sites feed the result to SQL `LIMIT`/`OFFSET`). -/
def jsNumber : JsIn → Option Int
  | .absent => none
  | .nullv => some 0
  | .num n => some n
  | .str s =>
    match s.toList with
    | [] => some 0
    | '-' :: ds => if ds ≠ [] ∧ ds.all isDig then some (-(digitsToNat ds : Int)) else none
    | ds => if ds.all isDig then some (digitsToNat ds : Int) else none

/-- `parseInt(x, 10)` with `none` for `NaN`. -/
def jsParseInt : JsIn → Option Int
  | .absent => none
  | .nullv => none
  | .num n => some n
  | .str s =>
    match s.toList with
    | '-' :: ds => if (grabDigits ds).1 = [] then none else some (-(digitsToNat (grabDigits ds).1 : Int))
    | ds => if (grabDigits ds).1 = [] then none else some (digitsToNat (grabDigits ds).1 : Int)

/-- The postgres stores' pagination resolution: `Number(x) || dflt`
(`NaN` and `0` fall back; everything else, negative or above 1000 included,
passes through unchanged). -/
def pgResolve (x : JsIn) (dflt : Int) : Int :=
  match jsNumber x with
  | none => dflt
  | some n => if n = 0 then dflt else n

/-- The mysql lead/chat-session stores' `skip` resolution:
`filters.skip !== undefined && filters.skip !== null ? parseInt(filters.skip, 10) : 0`,
then `isNaN(skip) ? 0 : Math.max(0, skip)`. -/
def mysqlResolveSkip (x : JsIn) : Int :=
  let skip : Option Int :=
    match x with
    | .absent => some 0
    | .nullv => some 0
    | x => jsParseInt x
  match skip with
  | none => 0
  | some n => max 0 n

/-- The mysql lead/chat-session stores' `limit` resolution:
`... ? parseInt(filters.limit, 10) : 50`, then
`isNaN(limit) ? 50 : Math.max(1, Math.min(1000, limit))`. -/
def mysqlResolveLimit (x : JsIn) : Int :=
  let limit : Option Int :=
    match x with
    | .absent => some 50
    | .nullv => some 50
    | x => jsParseInt x
  match limit with
  | none => 50
  | some n => max 1 (min 1000 n)

/-- Insertion into a list kept in descending key order. -/
def insertDescBy (key : α → Nat) (a : α) : List α → List α
  | [] => [a]
  | x :: xs => if key a ≥ key x then a :: x :: xs else x :: insertDescBy key a xs

/-- `ORDER BY <key> DESC` (ties in unspecified relative order, as in SQL). -/
def sortDescBy (key : α → Nat) : List α → List α
  | [] => []
  | x :: xs => insertDescBy key x (sortDescBy key xs)

/-- `LIMIT`/`OFFSET` applied to ordered rows: both engines reject a negative
limit or offset (`none` models the query error); otherwise the page is
`drop skip` then `take limit`. -/
def sqlPage (limit skip : Int) (rows : List α) : Option (List α) :=
  if limit < 0 ∨ skip < 0 then none
  else some ((rows.drop skip.toNat).take limit.toNat)

/-- A list result: the page and the total match count. -/
structure ListResult (α : Type) where
  items : List α
  total : Nat
deriving Repr

/-- Case-insensitive substring containment over character lists. -/
def containsSub : List Char → List Char → Bool
  | _, [] => true
  | [], _ :: _ => false
  | h :: t, p :: ps => ((p :: ps).isPrefixOf (h :: t)) || containsSub t (p :: ps)

/-- `LIKE '%needle%'` under a case-insensitive collation, and `ILIKE`:
substring containment after lower-casing both sides. -/
def ciContains (hay needle : String) : Bool :=
  containsSub (hay.toList.map Char.toLower) (needle.toList.map Char.toLower)

/-! ### The Lead entity

`LeadRow` is a stored `leads` row: scalar columns typed, JSON columns kept as
their stored text. `LeadDb` is the table state (rows plus the engine's next
auto-increment id). `now` arguments model `CURRENT_TIMESTAMP` defaults at
statement time. -/
structure LeadRow where
  id : Nat
  phone : Option String
  bhkType : String
  bhk : Option Int
  microsite : String
  leadSource : String
  status : String
  metadata : String
  conversation : String
  location : String
  createdAt : Nat
  updatedAt : Nat
deriving DecidableEq, Repr

structure LeadDb where
  rows : List LeadRow
  nextId : Nat
deriving DecidableEq, Repr

/-- A `leads` row as JavaScript sees it after a `SELECT *` through the driver:
JSON columns are `Json` values per `driverRead`. -/
structure LeadRowJs where
  id : Nat
  phone : Option String
  bhkType : String
  bhk : Option Int
  microsite : String
  leadSource : String
  status : String
  metadata : Json
  conversation : Json
  location : Json
  createdAt : Nat
  updatedAt : Nat
deriving Repr

/-- The driver row of a stored row. -/
def LeadRow.toJs (mode : DriverJson) (r : LeadRow) : LeadRowJs :=
  { id := r.id, phone := r.phone, bhkType := r.bhkType, bhk := r.bhk,
    microsite := r.microsite, leadSource := r.leadSource, status := r.status,
    metadata := driverRead mode r.metadata,
    conversation := driverRead mode r.conversation,
    location := driverRead mode r.location,
    createdAt := r.createdAt, updatedAt := r.updatedAt }

/-- The stores' read normalization of a lead row
(`metadata`/`conversation`/`location` each through
`typeof === 'string' ? JSON.parse(...) : ...`); `none` models a parse throw. -/
def normalizeLeadJs (r : LeadRowJs) : Option LeadRowJs := do
  let m ← normalizeField r.metadata
  let c ← normalizeField r.conversation
  let l ← normalizeField r.location
  pure { r with metadata := m, conversation := c, location := l }

/-- `data` for `createLead`: absent fields are `none` (`undefined`). -/
structure LeadData where
  phone : Option String := none
  bhkType : String
  bhk : Option Int := none
  microsite : String
  leadSource : Option String := none
  status : Option String := none
  metadata : Option Json := none
  conversation : Option Json := none
  location : Option Json := none

/-- `x || null` on an optional string (`""` is falsy and becomes null). -/
def strOrNull (v : Option String) : Option String :=
  match v with
  | some s => if s = "" then none else some s
  | none => none

/-- `x || null` on an optional number (`0` is falsy and becomes null). -/
def numOrNull (v : Option Int) : Option Int :=
  match v with
  | some n => if n = 0 then none else some n
  | none => none

/-- `x || dflt` on an optional string. -/
def strOrDefault (v : Option String) (dflt : String) : String :=
  match v with
  | some s => if s = "" then dflt else s
  | none => dflt

/-- The row the `INSERT INTO leads ...` of `createLead` produces (defaults
applied exactly as in the parameter list of the source, JSON columns
serialized with `JSON.stringify`; the engine assigns `id` and the timestamp
defaults). Shared by both backends: their inserts carry the same columns and
the same defaulting expressions, differing only in placeholder syntax. -/
def insertedLead (data : LeadData) (db : LeadDb) (now : Nat) : LeadRow :=
  { id := db.nextId,
    phone := strOrNull data.phone,
    bhkType := data.bhkType,
    bhk := numOrNull data.bhk,
    microsite := data.microsite,
    leadSource := strOrDefault data.leadSource "ChatWidget",
    status := strOrDefault data.status "new",
    metadata := Json.stringify (jsOr data.metadata (Json.obj [])),
    conversation := Json.stringify (jsOr data.conversation (Json.arr [])),
    location := Json.stringify (jsOr data.location Json.null),
    createdAt := now, updatedAt := now }

/-- postgres `createLead`: `INSERT ... RETURNING *` and return `rows[0]`
directly (no read normalization in the source). -/
def createLead_pg (mode : DriverJson) (data : LeadData) (db : LeadDb) (now : Nat) :
    LeadRowJs × LeadDb :=
  let row := insertedLead data db now
  (row.toJs mode, { rows := db.rows ++ [row], nextId := db.nextId + 1 })

/-- mysql `createLead`: `INSERT`, then
`SELECT * FROM leads WHERE id = LAST_INSERT_ID()` on the same connection and
return `rows[0]` (no read normalization in the source). `none` models
`rows[0]` being `undefined`, which cannot happen right after the insert. -/
def createLead_mysql (mode : DriverJson) (data : LeadData) (db : LeadDb) (now : Nat) :
    Option LeadRowJs × LeadDb :=
  let row := insertedLead data db now
  let db2 : LeadDb := { rows := db.rows ++ [row], nextId := db.nextId + 1 }
  ((db2.rows.find? (fun r => r.id == db.nextId)).map (LeadRow.toJs mode), db2)

/-- The filter descriptor `listLeads` receives. Date filters are modelled as
timestamps (the value of `new Date(...)` applied to the raw filter). -/
structure LeadFilters where
  microsite : Option String := none
  search : Option String := none
  startDate : Option Nat := none
  endDate : Option Nat := none
  status : Option String := none
  skip : JsIn := .absent
  limit : JsIn := .absent

/-- JS truthiness of an optional string filter: present and nonempty. -/
def strFilterActive (v : Option String) : Bool :=
  match v with
  | some s => s ≠ ""
  | none => false

/-- The WHERE clause of `listLeads`, compiled to a row predicate. Both
backends build the same conditions: exact `microsite`/`status` matches, a
case-insensitive substring search over microsite, phone and the metadata
text (`ILIKE` on postgres; `LIKE` under the default case-insensitive
collation, via `LOWER(...)` for microsite, on mysql), and
`BETWEEN`/`>=`/`<=` on `created_at`. A SQL `NULL` phone never matches. -/
def leadMatches (f : LeadFilters) (r : LeadRow) : Bool :=
  (if strFilterActive f.microsite then r.microsite == f.microsite.getD "" else true)
  && (if strFilterActive f.search then
        (let s := f.search.getD ""
         ciContains r.microsite s
           || (match r.phone with | some p => ciContains p s | none => false)
           || ciContains r.metadata s)
      else true)
  && (match f.startDate, f.endDate with
      | some a, some b => a ≤ r.createdAt && r.createdAt ≤ b
      | some a, none => a ≤ r.createdAt
      | none, some b => r.createdAt ≤ b
      | none, none => true)
  && (if strFilterActive f.status then r.status == f.status.getD "" else true)

/-- postgres `listLeads`: one `COUNT(*)` and one page query over the same
WHERE clause; `Number(...) || dflt` pagination; read normalization of the
page rows. `none` models a thrown error (negative `LIMIT`/`OFFSET`, or a
JSON parse failure). -/
def listLeads_pg (mode : DriverJson) (f : LeadFilters) (db : LeadDb) :
    Option (ListResult LeadRowJs) := do
  let matching := db.rows.filter (leadMatches f)
  let total := matching.length
  let skip := pgResolve f.skip 0
  let limit := pgResolve f.limit 50
  let page ← sqlPage limit skip (sortDescBy (·.createdAt) matching)
  let items ← page.mapM (fun r => normalizeLeadJs (r.toJs mode))
  pure { items := items, total := total }

/-- mysql `listLeads`: as the postgres one, but with the
`parseInt`/`isNaN`/clamp pagination of the source. -/
def listLeads_mysql (mode : DriverJson) (f : LeadFilters) (db : LeadDb) :
    Option (ListResult LeadRowJs) := do
  let matching := db.rows.filter (leadMatches f)
  let total := matching.length
  let validSkip := mysqlResolveSkip f.skip
  let validLimit := mysqlResolveLimit f.limit
  let page ← sqlPage validLimit validSkip (sortDescBy (·.createdAt) matching)
  let items ← page.mapM (fun r => normalizeLeadJs (r.toJs mode))
  pure { items := items, total := total }

/-- `getLeadById` (same on both backends up to placeholder syntax):
`some (some r)` is a found row after normalization, `some none` the JS
`null` for an absent id, `none` a JSON parse throw. -/
def getLeadById (mode : DriverJson) (id : Nat) (db : LeadDb) :
    Option (Option LeadRowJs) :=
  match db.rows.find? (fun r => r.id == id) with
  | none => some none
  | some r => (normalizeLeadJs (r.toJs mode)).map some

/-- The partial-update input of `updateLead`: `none` is an absent
(`undefined`) field, which the source skips via `!== undefined`. An explicit
`null` is representable for the nullable columns. -/
structure LeadUpdates where
  phone : Option (Option String) := none
  bhkType : Option String := none
  bhk : Option (Option Int) := none
  status : Option String := none
  metadata : Option Json := none
  conversation : Option Json := none
  location : Option Json := none

/-- Does the update carry at least one field (`fields.length > 0`)? -/
def LeadUpdates.nonEmpty (u : LeadUpdates) : Bool :=
  u.phone.isSome || u.bhkType.isSome || u.bhk.isSome || u.status.isSome
    || u.metadata.isSome || u.conversation.isSome || u.location.isSome

/-- The effect of the generated `UPDATE leads SET ... WHERE id = ?` on one
row: exactly the provided columns are overwritten (JSON values serialized),
every other column is left as it is. The schema-level `updated_at` touch
(`ON UPDATE CURRENT_TIMESTAMP` on mysql, a trigger on postgres) is outside
the store's statement and not part of this model. -/
def applyLeadUpdates (u : LeadUpdates) (r : LeadRow) : LeadRow :=
  { r with
    phone := u.phone.getD r.phone,
    bhkType := u.bhkType.getD r.bhkType,
    bhk := u.bhk.getD r.bhk,
    status := u.status.getD r.status,
    metadata := (u.metadata.map Json.stringify).getD r.metadata,
    conversation := (u.conversation.map Json.stringify).getD r.conversation,
    location := (u.location.map Json.stringify).getD r.location }

/-- postgres `updateLead`: zero provided fields short-circuits to
`getLeadById` with no write; otherwise one `UPDATE ... RETURNING *` and
normalization of the returned row (`null` when no row matched). -/
def updateLead_pg (mode : DriverJson) (id : Nat) (u : LeadUpdates) (db : LeadDb) :
    Option (Option LeadRowJs) × LeadDb :=
  if u.nonEmpty = false then (getLeadById mode id db, db)
  else
    let db2 : LeadDb :=
      { db with rows := db.rows.map (fun r => if r.id == id then applyLeadUpdates u r else r) }
    (match db2.rows.find? (fun r => r.id == id) with
     | none => some none
     | some r => (normalizeLeadJs (r.toJs mode)).map some,
     db2)

/-- mysql `updateLead`: zero provided fields short-circuits to
`getLeadById`; otherwise `UPDATE`, then `SELECT * ... WHERE id = ?` and
normalization of the fetched row. -/
def updateLead_mysql (mode : DriverJson) (id : Nat) (u : LeadUpdates) (db : LeadDb) :
    Option (Option LeadRowJs) × LeadDb :=
  if u.nonEmpty = false then (getLeadById mode id db, db)
  else
    let db2 : LeadDb :=
      { db with rows := db.rows.map (fun r => if r.id == id then applyLeadUpdates u r else r) }
    (match db2.rows.find? (fun r => r.id == id) with
     | none => some none
     | some r => (normalizeLeadJs (r.toJs mode)).map some,
     db2)

/-- `deleteLead` (both backends): `DELETE FROM leads WHERE id = ?`, then
`return true` unconditionally. -/
def deleteLead (id : Nat) (db : LeadDb) : Bool × LeadDb :=
  (true, { db with rows := db.rows.filter (fun r => r.id != id) })

/-! ### The Event entity (immutable once created; no update operation) -/
structure EventRow where
  id : Nat
  type : String
  projectId : String
  microsite : Option String
  payload : String
  location : String
  createdAt : Nat
deriving DecidableEq, Repr

structure EventDb where
  rows : List EventRow
  nextId : Nat
deriving DecidableEq, Repr

/-- An `events` row as JavaScript sees it through the driver. -/
structure EventRowJs where
  id : Nat
  type : String
  projectId : String
  microsite : Option String
  payload : Json
  location : Json
  createdAt : Nat
deriving Repr

def EventRow.toJs (mode : DriverJson) (r : EventRow) : EventRowJs :=
  { id := r.id, type := r.type, projectId := r.projectId, microsite := r.microsite,
    payload := driverRead mode r.payload, location := driverRead mode r.location,
    createdAt := r.createdAt }

/-- Read normalization of an event row (`payload`/`location`). -/
def normalizeEventJs (r : EventRowJs) : Option EventRowJs := do
  let p ← normalizeField r.payload
  let l ← normalizeField r.location
  pure { r with payload := p, location := l }

/-- `data` for `createEvent`. -/
structure EventData where
  type : String
  projectId : String
  microsite : Option String := none
  payload : Option Json := none
  location : Option Json := none

/-- The row the `INSERT INTO events ...` of `createEvent` produces
(defaults per the source's parameter list; the engine assigns `id` and
`created_at`). -/
def insertedEvent (data : EventData) (db : EventDb) (now : Nat) : EventRow :=
  { id := db.nextId,
    type := data.type,
    projectId := data.projectId,
    microsite := strOrNull data.microsite,
    payload := Json.stringify (jsOr data.payload (Json.obj [])),
    location := Json.stringify (jsOr data.location Json.null),
    createdAt := now }

/-- postgres `createEvent`: `INSERT ... RETURNING *`, returning `rows[0]`. -/
def createEvent_pg (mode : DriverJson) (data : EventData) (db : EventDb) (now : Nat) :
    EventRowJs × EventDb :=
  let row := insertedEvent data db now
  (row.toJs mode, { rows := db.rows ++ [row], nextId := db.nextId + 1 })

/-- mysql `createEvent`: `INSERT`, then `SELECT * ... WHERE id = LAST_INSERT_ID()`. -/
def createEvent_mysql (mode : DriverJson) (data : EventData) (db : EventDb) (now : Nat) :
    Option EventRowJs × EventDb :=
  let row := insertedEvent data db now
  let db2 : EventDb := { rows := db.rows ++ [row], nextId := db.nextId + 1 }
  ((db2.rows.find? (fun r => r.id == db.nextId)).map (EventRow.toJs mode), db2)

/-- The filter descriptor of `listEvents`. -/
structure EventFilters where
  type : Option String := none
  projectId : Option String := none
  microsite : Option String := none
  startDate : Option Nat := none
  endDate : Option Nat := none
  skip : JsIn := .absent
  limit : JsIn := .absent

/-- The WHERE clause of `listEvents` as a row predicate (same conditions on
both backends: exact matches on type/projectId/microsite, date range on
`created_at`). -/
def eventMatches (f : EventFilters) (r : EventRow) : Bool :=
  (if strFilterActive f.type then r.type == f.type.getD "" else true)
  && (if strFilterActive f.projectId then r.projectId == f.projectId.getD "" else true)
  && (if strFilterActive f.microsite then r.microsite == some (f.microsite.getD "") else true)
  && (match f.startDate, f.endDate with
      | some a, some b => a ≤ r.createdAt && r.createdAt ≤ b
      | some a, none => a ≤ r.createdAt
      | none, some b => r.createdAt ≤ b
      | none, none => true)

/-- postgres `listEvents`: a single page query (no `COUNT(*)` anywhere in the
function), `Number(...) || 100` pagination, returning the bare array of
normalized rows -- there is no `total` in its result. -/
def listEvents_pg (mode : DriverJson) (f : EventFilters) (db : EventDb) :
    Option (List EventRowJs) := do
  let matching := db.rows.filter (eventMatches f)
  let skip := pgResolve f.skip 0
  let limit := pgResolve f.limit 100
  let page ← sqlPage limit skip (sortDescBy (·.createdAt) matching)
  page.mapM (fun r => normalizeEventJs (r.toJs mode))

/-- mysql `listEvents`: identical shape -- `Number(...) || 100` pagination
(no `parseInt` clamping in the event store either), one page query, bare
array result without `total`. -/
def listEvents_mysql (mode : DriverJson) (f : EventFilters) (db : EventDb) :
    Option (List EventRowJs) := do
  let matching := db.rows.filter (eventMatches f)
  let skip := pgResolve f.skip 0
  let limit := pgResolve f.limit 100
  let page ← sqlPage limit skip (sortDescBy (·.createdAt) matching)
  page.mapM (fun r => normalizeEventJs (r.toJs mode))

/-- `getEventById` (both backends up to placeholders). -/
def getEventById (mode : DriverJson) (id : Nat) (db : EventDb) :
    Option (Option EventRowJs) :=
  match db.rows.find? (fun r => r.id == id) with
  | none => some none
  | some r => (normalizeEventJs (r.toJs mode)).map some

/-- `deleteEvent` (both backends): `DELETE FROM events WHERE id = ?`, then
`return true` unconditionally. -/
def deleteEvent (id : Nat) (db : EventDb) : Bool × EventDb :=
  (true, { db with rows := db.rows.filter (fun r => r.id != id) })

/-! ### The ChatSession entity -/
structure ChatRow where
  id : Nat
  microsite : String
  projectId : Option String
  leadId : Option Nat
  phone : Option String
  bhkType : Option String
  conversation : String
  metadata : String
  location : String
  createdAt : Nat
  updatedAt : Nat
deriving DecidableEq, Repr

structure ChatDb where
  rows : List ChatRow
  nextId : Nat
deriving DecidableEq, Repr

structure ChatRowJs where
  id : Nat
  microsite : String
  projectId : Option String
  leadId : Option Nat
  phone : Option String
  bhkType : Option String
  conversation : Json
  metadata : Json
  location : Json
  createdAt : Nat
  updatedAt : Nat
deriving Repr

def ChatRow.toJs (mode : DriverJson) (r : ChatRow) : ChatRowJs :=
  { id := r.id, microsite := r.microsite, projectId := r.projectId, leadId := r.leadId,
    phone := r.phone, bhkType := r.bhkType,
    conversation := driverRead mode r.conversation,
    metadata := driverRead mode r.metadata,
    location := driverRead mode r.location,
    createdAt := r.createdAt, updatedAt := r.updatedAt }

/-- Read normalization of a chat-session row. -/
def normalizeChatJs (r : ChatRowJs) : Option ChatRowJs := do
  let c ← normalizeField r.conversation
  let m ← normalizeField r.metadata
  let l ← normalizeField r.location
  pure { r with conversation := c, metadata := m, location := l }

structure ChatData where
  microsite : String
  projectId : Option String := none
  leadId : Option Nat := none
  phone : Option String := none
  bhkType : Option String := none
  conversation : Option Json := none
  metadata : Option Json := none
  location : Option Json := none

/-- The row `createChatSession`'s `INSERT` produces (defaults per the
source's parameter list; a falsy `leadId` -- absent or 0 -- becomes null). -/
def insertedChat (data : ChatData) (db : ChatDb) (now : Nat) : ChatRow :=
  { id := db.nextId,
    microsite := data.microsite,
    projectId := strOrNull data.projectId,
    leadId := numOrNull (data.leadId.map Int.ofNat) |>.map Int.toNat,
    phone := strOrNull data.phone,
    bhkType := strOrNull data.bhkType,
    conversation := Json.stringify (jsOr data.conversation (Json.arr [])),
    metadata := Json.stringify (jsOr data.metadata (Json.obj [])),
    location := Json.stringify (jsOr data.location Json.null),
    createdAt := now, updatedAt := now }

/-- postgres `createChatSession`: `INSERT ... RETURNING *`, then (unlike the
lead store) explicit read normalization of the returned row. -/
def createChatSession_pg (mode : DriverJson) (data : ChatData) (db : ChatDb) (now : Nat) :
    Option ChatRowJs × ChatDb :=
  let row := insertedChat data db now
  (normalizeChatJs (row.toJs mode), { rows := db.rows ++ [row], nextId := db.nextId + 1 })

/-- mysql `createChatSession`: `INSERT`, `SELECT ... LAST_INSERT_ID()`, then
explicit read normalization. -/
def createChatSession_mysql (mode : DriverJson) (data : ChatData) (db : ChatDb) (now : Nat) :
    Option ChatRowJs × ChatDb :=
  let row := insertedChat data db now
  let db2 : ChatDb := { rows := db.rows ++ [row], nextId := db.nextId + 1 }
  (((db2.rows.find? (fun r => r.id == db.nextId)).map (ChatRow.toJs mode)).bind normalizeChatJs,
    db2)

/-- The filter descriptor of `listChatSessions` (exact matches only). -/
structure ChatFilters where
  microsite : Option String := none
  leadId : Option Nat := none
  projectId : Option String := none
  skip : JsIn := .absent
  limit : JsIn := .absent

/-- The WHERE clause of `listChatSessions` as a row predicate. -/
def chatMatches (f : ChatFilters) (r : ChatRow) : Bool :=
  (if strFilterActive f.microsite then r.microsite == f.microsite.getD "" else true)
  && (match f.leadId with
      | some l => if l = 0 then true else r.leadId == some l
      | none => true)
  && (if strFilterActive f.projectId then r.projectId == some (f.projectId.getD "") else true)

/-- postgres `listChatSessions`: `COUNT(*)` plus page over the same WHERE
clause, `Number(...) || dflt` pagination (default limit 50), normalized
items, `{items, total}` result. -/
def listChatSessions_pg (mode : DriverJson) (f : ChatFilters) (db : ChatDb) :
    Option (ListResult ChatRowJs) := do
  let matching := db.rows.filter (chatMatches f)
  let total := matching.length
  let skip := pgResolve f.skip 0
  let limit := pgResolve f.limit 50
  let page ← sqlPage limit skip (sortDescBy (·.createdAt) matching)
  let items ← page.mapM (fun r => normalizeChatJs (r.toJs mode))
  pure { items := items, total := total }

/-- mysql `listChatSessions`: as postgres but with the `parseInt`/clamp
pagination of the mysql stores. -/
def listChatSessions_mysql (mode : DriverJson) (f : ChatFilters) (db : ChatDb) :
    Option (ListResult ChatRowJs) := do
  let matching := db.rows.filter (chatMatches f)
  let total := matching.length
  let validSkip := mysqlResolveSkip f.skip
  let validLimit := mysqlResolveLimit f.limit
  let page ← sqlPage validLimit validSkip (sortDescBy (·.createdAt) matching)
  let items ← page.mapM (fun r => normalizeChatJs (r.toJs mode))
  pure { items := items, total := total }

/-- `getChatSessionById` (both backends up to placeholders). -/
def getChatSessionById (mode : DriverJson) (id : Nat) (db : ChatDb) :
    Option (Option ChatRowJs) :=
  match db.rows.find? (fun r => r.id == id) with
  | none => some none
  | some r => (normalizeChatJs (r.toJs mode)).map some

/-- The partial-update input of `updateChatSession` (only the three JSON
columns are updatable in the source). -/
structure ChatUpdates where
  conversation : Option Json := none
  metadata : Option Json := none
  location : Option Json := none

def ChatUpdates.nonEmpty (u : ChatUpdates) : Bool :=
  u.conversation.isSome || u.metadata.isSome || u.location.isSome

/-- Effect of the generated `UPDATE chat_sessions SET ...` on one row. -/
def applyChatUpdates (u : ChatUpdates) (r : ChatRow) : ChatRow :=
  { r with
    conversation := (u.conversation.map Json.stringify).getD r.conversation,
    metadata := (u.metadata.map Json.stringify).getD r.metadata,
    location := (u.location.map Json.stringify).getD r.location }

/-- postgres `updateChatSession`: empty update short-circuits to
`getChatSessionById`; otherwise `UPDATE ... RETURNING *` and normalization. -/
def updateChatSession_pg (mode : DriverJson) (id : Nat) (u : ChatUpdates) (db : ChatDb) :
    Option (Option ChatRowJs) × ChatDb :=
  if u.nonEmpty = false then (getChatSessionById mode id db, db)
  else
    let db2 : ChatDb :=
      { db with rows := db.rows.map (fun r => if r.id == id then applyChatUpdates u r else r) }
    (match db2.rows.find? (fun r => r.id == id) with
     | none => some none
     | some r => (normalizeChatJs (r.toJs mode)).map some,
     db2)

/-- mysql `updateChatSession`: empty update short-circuits; otherwise
`UPDATE` then re-fetch by id and normalization. -/
def updateChatSession_mysql (mode : DriverJson) (id : Nat) (u : ChatUpdates) (db : ChatDb) :
    Option (Option ChatRowJs) × ChatDb :=
  if u.nonEmpty = false then (getChatSessionById mode id db, db)
  else
    let db2 : ChatDb :=
      { db with rows := db.rows.map (fun r => if r.id == id then applyChatUpdates u r else r) }
    (match db2.rows.find? (fun r => r.id == id) with
     | none => some none
     | some r => (normalizeChatJs (r.toJs mode)).map some,
     db2)

/-- `deleteChatSession` (both backends): unconditional `DELETE` then `true`. -/
def deleteChatSession (id : Nat) (db : ChatDb) : Bool × ChatDb :=
  (true, { db with rows := db.rows.filter (fun r => r.id != id) })

/-! ### The User entity (postgres User model)

Rows returned by the User model are represented as column-name/value lists,
mirroring the explicit column lists of its `SELECT`/`RETURNING` clauses, so
that "contains the `password_hash` field" is directly expressible. `bcrypt`
is external to the repository; the hash function is passed in as `hash`. -/
structure UserRow where
  id : Nat
  username : String
  passwordHash : String
  email : Option String
  role : String
  createdAt : Nat
  updatedAt : Nat
deriving DecidableEq, Repr

structure UserDb where
  rows : List UserRow
  nextId : Nat
deriving DecidableEq, Repr

/-- The value of one named column of a `users` row. -/
def userFieldVal (u : UserRow) (c : String) : Json :=
  if c = "id" then .num u.id
  else if c = "username" then .str u.username
  else if c = "password_hash" then .str u.passwordHash
  else if c = "email" then (match u.email with | some e => .str e | none => .null)
  else if c = "role" then .str u.role
  else if c = "created_at" then .num u.createdAt
  else if c = "updated_at" then .num u.updatedAt
  else .null

/-- A row as a `SELECT <cols>` returns it. -/
def selectCols (cols : List String) (u : UserRow) : List (String × Json) :=
  cols.map (fun c => (c, userFieldVal u c))

/-- `User.create`: `INSERT ... RETURNING id, username, email, role,
created_at, updated_at` (the hash is stored, not returned); `role`
defaults to `'user'` by destructuring default. -/
def User_create (hash : String → String) (username password : String)
    (email : Option String) (role : Option String) (db : UserDb) (now : Nat) :
    List (String × Json) × UserDb :=
  let row : UserRow :=
    { id := db.nextId, username := username, passwordHash := hash password,
      email := email, role := role.getD "user", createdAt := now, updatedAt := now }
  (selectCols ["id", "username", "email", "role", "created_at", "updated_at"] row,
    { rows := db.rows ++ [row], nextId := db.nextId + 1 })

/-- `User.findByUsername`: `SELECT id, username, password_hash, email, role,
created_at, updated_at ... WHERE username = $1`, returning `rows[0] || null`. -/
def User_findByUsername (username : String) (db : UserDb) :
    Option (List (String × Json)) :=
  (db.rows.find? (fun r => r.username == username)).map
    (selectCols ["id", "username", "password_hash", "email", "role", "created_at", "updated_at"])

/-- `User.findById`: `SELECT id, username, email, role, created_at,
updated_at ... WHERE id = $1`, returning `rows[0] || null`. -/
def User_findById (id : Nat) (db : UserDb) : Option (List (String × Json)) :=
  (db.rows.find? (fun r => r.id == id)).map
    (selectCols ["id", "username", "email", "role", "created_at", "updated_at"])

/-- `User.findAll`: `SELECT id, username, email, role, created_at, updated_at
... ORDER BY created_at DESC`. -/
def User_findAll (db : UserDb) : List (List (String × Json)) :=
  (sortDescBy (·.createdAt) db.rows).map
    (selectCols ["id", "username", "email", "role", "created_at", "updated_at"])

/-- The partial-update input of `User.update`. -/
structure UserUpdates where
  email : Option (Option String) := none
  role : Option String := none
  password : Option String := none

def UserUpdates.nonEmpty (u : UserUpdates) : Bool :=
  u.email.isSome || u.role.isSome || u.password.isSome

/-- `User.update`: empty update short-circuits to `findById`; otherwise
`UPDATE users SET ... RETURNING id, username, email, role, created_at,
updated_at` (a provided password is hashed into `password_hash`). -/
def User_update (hash : String → String) (id : Nat) (u : UserUpdates) (db : UserDb) :
    Option (List (String × Json)) × UserDb :=
  if u.nonEmpty = false then (User_findById id db, db)
  else
    let apply := fun (r : UserRow) =>
      { r with
        email := u.email.getD r.email,
        role := u.role.getD r.role,
        passwordHash := (u.password.map hash).getD r.passwordHash }
    let db2 : UserDb :=
      { db with rows := db.rows.map (fun r => if r.id == id then apply r else r) }
    ((db2.rows.find? (fun r => r.id == id)).map
       (selectCols ["id", "username", "email", "role", "created_at", "updated_at"]),
     db2)

/-- `User.delete`: unconditional `DELETE FROM users WHERE id = $1`, `true`. -/
def User_delete (id : Nat) (db : UserDb) : Bool × UserDb :=
  (true, { db with rows := db.rows.filter (fun r => r.id != id) })

/-! ### Connection managers

Each backend module owns one mutable `pool` variable (`null` until a
successful `connect...()` call); the functions below pass that state
explicitly. A `Nat` stands for a pool object (identity only). The third
component of `connect`'s result records whether the connectivity probe ran.
`fresh` is the pool object `new Pool(...)` / `mysql.createPool(...)` would
allocate. -/
/-- Case-sensitive `String.prototype.includes`. -/
def strIncludes (s sub : String) : Bool := containsSub s.toList sub.toList

/-- The first truthy value of `a || b` over possibly-absent env strings. -/
def envOr (a b : Option String) : Option String :=
  match strOrNull a with
  | some s => some s
  | none => strOrNull b

structure PgEnv where
  databaseUrl : Option String := none
  postgresqlUri : Option String := none
  probeOk : Bool := true

/-- `connectPostgreSQL`: an existing pool is returned as is (no new pool, no
probe); otherwise the connection string is resolved, the pool created, and
the connectivity probe run once -- note the source assigns `pool` before the
probe, so a failed probe still leaves the pool set. -/
def connectPostgreSQL (env : PgEnv) (pool : Option Nat) (fresh : Nat) :
    Except String Nat × Option Nat × Bool :=
  match pool with
  | some p => (.ok p, some p, false)
  | none =>
    match envOr env.databaseUrl env.postgresqlUri with
    | none => (.error "DATABASE_URL or POSTGRESQL_URI environment variable is not set", none, false)
    | some _ =>
      if env.probeOk then (.ok fresh, some fresh, true)
      else (.error "Failed to connect to PostgreSQL", some fresh, true)

/-- `getPool` (postgres): the pool, or the distinct not-connected error. -/
def getPool_pg (pool : Option Nat) : Except String Nat :=
  match pool with
  | none => .error "PostgreSQL not connected. Call connectPostgreSQL() first."
  | some p => .ok p

/-- `query` (postgres): acquires the pool via `getPool` and runs the
statement on it; it never creates or replaces a pool (the second component
is the pool state after the call). -/
def query_pg (pool : Option Nat) : Except String Nat × Option Nat :=
  (getPool_pg pool, pool)

structure MysqlEnv where
  databaseUrl : Option String := none
  mysqlUrl : Option String := none
  mysqlUri : Option String := none
  mysqlHost : Option String := none
  mysqlUser : Option String := none
  urlParseOk : Bool := true
  probeOk : Bool := true

/-- The placeholder-connection-string heuristic of `connectMySQL`. -/
def mysqlIsPlaceholder (s : String) : Bool :=
  strIncludes s "username:password@host" || strIncludes s "user:pass@host"
    || strIncludes s "@host:"
    || (strIncludes s "host" && !strIncludes s "localhost"
        && !strIncludes s "127.0.0.1" && !strIncludes s ".")

/-- `connectMySQL`: an existing pool is returned as is (no new pool, no
probe); otherwise the connection string is resolved from
`DATABASE_URL || MYSQL_URL || MYSQL_URI`, checked against the placeholder
heuristic, and the config built from a `mysql://`/`mysql2://` URL
(`urlParseOk` models `new URL(...)` succeeding), discrete `MYSQL_*`
variables, or `JSON.parse` of the string; then the pool is created and
probed (the source assigns `pool` before the probe). -/
def connectMySQL (env : MysqlEnv) (pool : Option Nat) (fresh : Nat) :
    Except String Nat × Option Nat × Bool :=
  match pool with
  | some p => (.ok p, some p, false)
  | none =>
    match envOr env.databaseUrl (envOr env.mysqlUrl env.mysqlUri) with
    | none =>
      (.error "DATABASE_URL, MYSQL_URL, or MYSQL_URI environment variable is not set",
        none, false)
    | some s =>
      if mysqlIsPlaceholder s then
        (.error "DATABASE_URL appears to be a placeholder. Please set a valid MySQL connection string.",
          none, false)
      else
        let buildOk : Except String Unit :=
          if s.startsWith "mysql://" || s.startsWith "mysql2://" then
            if env.urlParseOk then .ok () else .error "Invalid MySQL connection string format"
          else if (strOrNull env.mysqlHost).isSome || (strOrNull env.mysqlUser).isSome then
            .ok ()
          else
            match parseJson s with
            | some _ => .ok ()
            | none =>
              .error "DATABASE_URL must be a MySQL connection string (mysql://...) or individual MYSQL_* environment variables must be set"
        match buildOk with
        | .error e => (.error e, none, false)
        | .ok _ =>
          if env.probeOk then (.ok fresh, some fresh, true)
          else (.error "Failed to connect to MySQL", some fresh, true)

/-- `getPool` (mysql). -/
def getPool_mysql (pool : Option Nat) : Except String Nat :=
  match pool with
  | none => .error "MySQL not connected. Call connectMySQL() first."
  | some p => .ok p

/-- `query` (mysql): fails on the explicit `!pool` guard before touching
`getPool`; never creates or replaces a pool. -/
def query_mysql (pool : Option Nat) : Except String Nat × Option Nat :=
  match pool with
  | none =>
    (.error "MySQL not connected. Connection may have failed during initialization.", none)
  | some _ => (getPool_mysql pool, pool)

/-! ### The schema bootstrapper

`initializeSchema` (same splitter on both backends) reads the schema text,
splits on `;`, trims each segment, and keeps the segments that are nonempty
and do not start with `--` or `/*`; each kept statement is executed in order,
an error whose message marks an existing object is skipped, and any other
error aborts. `pgSchemaLines` is the repository's `schema.sql`, verbatim. -/
/-- JS `String.prototype.trim` whitespace. -/
def isWsChar (c : Char) : Bool := c = ' ' || c = '\n' || c = '\t' || c = '\r'

def dropLeadingWs : List Char → List Char
  | [] => []
  | c :: cs => if isWsChar c then dropLeadingWs cs else c :: cs

/-- `trim()`: strip whitespace from both ends. -/
def trimWs (cs : List Char) : List Char :=
  (dropLeadingWs (dropLeadingWs cs.reverse).reverse)

/-- `split(';')`, with the segment under construction accumulated in
reverse: every segment, empties included. -/
def splitOnSemiAux : List Char → List Char → List (List Char)
  | acc, [] => [acc.reverse]
  | acc, c :: cs =>
    if c = ';' then acc.reverse :: splitOnSemiAux [] cs
    else splitOnSemiAux (c :: acc) cs

/-- `split(';')`: every segment, empties included. -/
def splitOnSemi (cs : List Char) : List (List Char) := splitOnSemiAux [] cs

/-- The statement filter of `initializeSchema`: keep a trimmed segment iff it
is nonempty and starts with neither `--` nor `/*`. A segment whose first line
is a comment is dropped whole, whatever follows the comment. -/
def keepStatement (s : List Char) : Bool :=
  decide (s ≠ []) && !("--".toList.isPrefixOf s) && !("/*".toList.isPrefixOf s)

/-- The statements `initializeSchema` will execute, in order. -/
def schemaStatements (schema : List Char) : List (List Char) :=
  ((splitOnSemi schema).map trimWs).filter keepStatement

/-- postgres: skip an execution error iff its message includes
`'already exists'`. -/
def pgSkipsError (msg : List Char) : Bool :=
  containsSub msg "already exists".toList

/-- mysql: skip iff the message includes `'already exists'` or `'Duplicate'`. -/
def mysqlSkipsError (msg : List Char) : Bool :=
  containsSub msg "already exists".toList || containsSub msg "Duplicate".toList

/-- The execution loop of `initializeSchema` over an engine (`exec s = none`
is success, `some msg` a statement error): a skippable error continues with
the next statement, any other error aborts the bootstrap with that error;
the result lists the statements that executed successfully. -/
def runSchemaStatements (skips : List Char → Bool) (exec : List Char → Option (List Char)) :
    List (List Char) → Except (List Char) (List (List Char))
  | [] => .ok []
  | s :: rest =>
    match exec s with
    | none => (runSchemaStatements skips exec rest).map (s :: ·)
    | some msg => if skips msg then runSchemaStatements skips exec rest else .error msg

/-- `initializeSchema` (postgres): split, filter, run with the postgres
error classifier. -/
def initializeSchema_pg (exec : List Char → Option (List Char)) (schema : List Char) :
    Except (List Char) (List (List Char)) :=
  runSchemaStatements pgSkipsError exec (schemaStatements schema)

/-- `initializeSchema` (mysql): split, filter, run with the mysql error
classifier. -/
def initializeSchema_mysql (exec : List Char → Option (List Char)) (schema : List Char) :
    Except (List Char) (List (List Char)) :=
  runSchemaStatements mysqlSkipsError exec (schemaStatements schema)

/-- The repository's `schema.sql`, line by line, verbatim. -/
def pgSchemaLines : List String := [
  "-- PostgreSQL Schema for Homesfy Chat Buddy",
  "-- Run this to create all tables",
  "",
  "-- Users table for authentication",
  "CREATE TABLE IF NOT EXISTS users (",
  "    id SERIAL PRIMARY KEY,",
  "    username VARCHAR(255) UNIQUE NOT NULL,",
  "    password_hash VARCHAR(255) NOT NULL,",
  "    email VARCHAR(255),",
  "    role VARCHAR(50) DEFAULT \x27user\x27,",
  "    created_at TIMESTAMP DEFAULT CURRENT_TIMESTAMP,",
  "    updated_at TIMESTAMP DEFAULT CURRENT_TIMESTAMP",
  ");",
  "",
  "-- Sessions table for authentication tokens",
  "CREATE TABLE IF NOT EXISTS sessions (",
  "    id SERIAL PRIMARY KEY,",
  "    user_id INTEGER REFERENCES users(id) ON DELETE CASCADE,",
  "    token VARCHAR(255) UNIQUE NOT NULL,",
  "    expires_at TIMESTAMP NOT NULL,",
  "    created_at TIMESTAMP DEFAULT CURRENT_TIMESTAMP",
  ");",
  "",
  "-- Leads table",
  "CREATE TABLE IF NOT EXISTS leads (",
  "    id SERIAL PRIMARY KEY,",
  "    phone VARCHAR(20),",
  "    bhk_type VARCHAR(50) NOT NULL,",
  "    bhk INTEGER,",
  "    microsite VARCHAR(255) NOT NULL,",
  "    lead_source VARCHAR(100) DEFAULT \x27ChatWidget\x27,",
  "    status VARCHAR(50) DEFAULT \x27new\x27 CHECK (status IN (\x27new\x27, \x27contacted\x27, \x27qualified\x27, \x27closed\x27)),",
  "    metadata JSONB DEFAULT \x27\x7b\x7d\x27,",
  "    conversation JSONB DEFAULT \x27[]\x27,",
  "    location JSONB,",
  "    created_at TIMESTAMP DEFAULT CURRENT_TIMESTAMP,",
  "    updated_at TIMESTAMP DEFAULT CURRENT_TIMESTAMP",
  ");",
  "",
  "-- Create indexes for leads",
  "CREATE INDEX IF NOT EXISTS idx_leads_phone ON leads(phone);",
  "CREATE INDEX IF NOT EXISTS idx_leads_microsite ON leads(microsite);",
  "CREATE INDEX IF NOT EXISTS idx_leads_status ON leads(status);",
  "CREATE INDEX IF NOT EXISTS idx_leads_created_at ON leads(created_at);",
  "CREATE INDEX IF NOT EXISTS idx_leads_phone_microsite ON leads(phone, microsite);",
  "",
  "-- Chat sessions table",
  "CREATE TABLE IF NOT EXISTS chat_sessions (",
  "    id SERIAL PRIMARY KEY,",
  "    microsite VARCHAR(255) NOT NULL,",
  "    project_id VARCHAR(255),",
  "    lead_id INTEGER REFERENCES leads(id) ON DELETE SET NULL,",
  "    phone VARCHAR(20),",
  "    bhk_type VARCHAR(50),",
  "    conversation JSONB DEFAULT \x27[]\x27,",
  "    metadata JSONB DEFAULT \x27\x7b\x7d\x27,",
  "    location JSONB,",
  "    created_at TIMESTAMP DEFAULT CURRENT_TIMESTAMP,",
  "    updated_at TIMESTAMP DEFAULT CURRENT_TIMESTAMP",
  ");",
  "",
  "-- Create indexes for chat_sessions",
  "CREATE INDEX IF NOT EXISTS idx_chat_sessions_microsite ON chat_sessions(microsite);",
  "CREATE INDEX IF NOT EXISTS idx_chat_sessions_lead_id ON chat_sessions(lead_id);",
  "CREATE INDEX IF NOT EXISTS idx_chat_sessions_project_id ON chat_sessions(project_id);",
  "",
  "-- Events table for analytics",
  "CREATE TABLE IF NOT EXISTS events (",
  "    id SERIAL PRIMARY KEY,",
  "    type VARCHAR(100) NOT NULL,",
  "    project_id VARCHAR(255) NOT NULL,",
  "    microsite VARCHAR(255),",
  "    payload JSONB DEFAULT \x27\x7b\x7d\x27,",
  "    location JSONB,",
  "    created_at TIMESTAMP DEFAULT CURRENT_TIMESTAMP",
  ");",
  "",
  "-- Create indexes for events",
  "CREATE INDEX IF NOT EXISTS idx_events_type ON events(type);",
  "CREATE INDEX IF NOT EXISTS idx_events_project_id ON events(project_id);",
  "CREATE INDEX IF NOT EXISTS idx_events_microsite ON events(microsite);",
  "CREATE INDEX IF NOT EXISTS idx_events_created_at ON events(created_at);",
  "",
  "-- Widget config table",
  "CREATE TABLE IF NOT EXISTS widget_configs (",
  "    id SERIAL PRIMARY KEY,",
  "    project_id VARCHAR(255) UNIQUE NOT NULL,",
  "    agent_name VARCHAR(255) DEFAULT \x27Riya from Homesfy\x27,",
  "    avatar_url VARCHAR(500) DEFAULT \x27https://cdn.homesfy.com/assets/riya-avatar.png\x27,",
  "    primary_color VARCHAR(20) DEFAULT \x27#6158ff\x27,",
  "    followup_message TEXT DEFAULT \x27Sure… I\x27\x27ll send that across right away!\x27,",
  "    bhk_prompt TEXT DEFAULT \x27Which configuration you are looking for?\x27,",
  "    inventory_message TEXT DEFAULT \x27That\x27\x27s cool… we have inventory available with us.\x27,",
  "    phone_prompt TEXT DEFAULT \x27Please enter your mobile number...\x27,",
  "    thank_you_message TEXT DEFAULT \x27Thanks! Our expert will call you shortly 📞\x27,",
  "    bubble_position VARCHAR(20) DEFAULT \x27bottom-right\x27 CHECK (bubble_position IN (\x27bottom-right\x27, \x27bottom-left\x27)),",
  "    auto_open_delay_ms INTEGER DEFAULT 4000,",
  "    welcome_message TEXT DEFAULT \x27Hi, I\x27\x27m Riya from Homesfy 👋\\nHow can I help you today?\x27,",
  "    property_info JSONB DEFAULT \x27\x7b\x7d\x27,",
  "    created_by VARCHAR(255),",
  "    updated_by VARCHAR(255),",
  "    created_at TIMESTAMP DEFAULT CURRENT_TIMESTAMP,",
  "    updated_at TIMESTAMP DEFAULT CURRENT_TIMESTAMP",
  ");",
  "",
  "-- Create index for widget_configs",
  "CREATE INDEX IF NOT EXISTS idx_widget_configs_project_id ON widget_configs(project_id);",
  "",
  "-- Function to update updated_at timestamp",
  "CREATE OR REPLACE FUNCTION update_updated_at_column()",
  "RETURNS TRIGGER AS $$",
  "BEGIN",
  "    NEW.updated_at = CURRENT_TIMESTAMP;",
  "    RETURN NEW;",
  "END;",
  "$$ language \x27plpgsql\x27;",
  "",
  "-- Triggers to auto-update updated_at",
  "CREATE TRIGGER update_users_updated_at BEFORE UPDATE ON users",
  "    FOR EACH ROW EXECUTE FUNCTION update_updated_at_column();",
  "",
  "CREATE TRIGGER update_leads_updated_at BEFORE UPDATE ON leads",
  "    FOR EACH ROW EXECUTE FUNCTION update_updated_at_column();",
  "",
  "CREATE TRIGGER update_chat_sessions_updated_at BEFORE UPDATE ON chat_sessions",
  "    FOR EACH ROW EXECUTE FUNCTION update_updated_at_column();",
  "",
  "CREATE TRIGGER update_widget_configs_updated_at BEFORE UPDATE ON widget_configs",
  "    FOR EACH ROW EXECUTE FUNCTION update_updated_at_column();",
  ""]

/-- Join lines back into the schema text. -/
def joinLines : List String → List Char
  | [] => []
  | [l] => l.toList
  | l :: ls => l.toList ++ '\n' :: joinLines ls

/-- The canonical schema text `initializeSchema` reads. -/
def pgSchemaText : List Char := joinLines pgSchemaLines

/-- A one-user table for exercising the User store. -/
def c9Db : UserDb :=
  { rows := [{ id := 1, username := "admin", passwordHash := "bcrypt-digest",
               email := none, role := "user", createdAt := 0, updatedAt := 0 }],
    nextId := 2 }

/-- A one-row lead table for exercising pagination. -/
def c2Db : LeadDb :=
  { rows := [{ id := 1, phone := none, bhkType := "2BHK", bhk := none, microsite := "m",
               leadSource := "ChatWidget", status := "new",
               metadata := Json.stringify (Json.obj []),
               conversation := Json.stringify (Json.arr []),
               location := Json.stringify Json.null, createdAt := 1, updatedAt := 1 }],
    nextId := 2 }

/-- `events` tables for the C1 counterexample: five matching rows vs. the two
newest of them. -/
def c1Db1 : EventDb :=
  { rows := [
      { id := 1, type := "widget_open", projectId := "p1", microsite := none,
        payload := Json.stringify (Json.obj []), location := Json.stringify Json.null,
        createdAt := 9 },
      { id := 2, type := "widget_open", projectId := "p1", microsite := none,
        payload := Json.stringify (Json.obj []), location := Json.stringify Json.null,
        createdAt := 8 },
      { id := 3, type := "widget_open", projectId := "p1", microsite := none,
        payload := Json.stringify (Json.obj []), location := Json.stringify Json.null,
        createdAt := 7 },
      { id := 4, type := "widget_open", projectId := "p1", microsite := none,
        payload := Json.stringify (Json.obj []), location := Json.stringify Json.null,
        createdAt := 6 },
      { id := 5, type := "widget_open", projectId := "p1", microsite := none,
        payload := Json.stringify (Json.obj []), location := Json.stringify Json.null,
        createdAt := 5 }], nextId := 6 }

def c1Db2 : EventDb :=
  { rows := [
      { id := 1, type := "widget_open", projectId := "p1", microsite := none,
        payload := Json.stringify (Json.obj []), location := Json.stringify Json.null,
        createdAt := 9 },
      { id := 2, type := "widget_open", projectId := "p1", microsite := none,
        payload := Json.stringify (Json.obj []), location := Json.stringify Json.null,
        createdAt := 8 }], nextId := 3 }

def c1Filters : EventFilters := { limit := .num 2 }

/-! ### The codec round-trip, proven -/
/-- `digChar` carries exactly its digit. -/
theorem digitVal_digChar {d : Nat} (h : d < 10) : digitVal (digChar d) = d := by
  interval_cases d <;> decide

/-- `digChar` produces a digit character. -/
theorem isDig_digChar {d : Nat} (h : d < 10) : isDig (digChar d) = true := by
  interval_cases d <;> decide

/-- Every character of a rendered natural number is a digit. -/
theorem natChars_all_dig (n : Nat) : ∀ c ∈ natChars n, isDig c = true := by
  intro c hc
  unfold natChars at hc
  by_cases h0 : n = 0
  · simp [h0] at hc
    subst hc
    decide
  · simp only [if_neg h0, List.mem_reverse, List.mem_map] at hc
    obtain ⟨d, hd, rfl⟩ := hc
    exact isDig_digChar (Nat.digits_lt_base (by omega) hd)

/-- A rendered natural number is nonempty. -/
theorem natChars_ne_nil (n : Nat) : natChars n ≠ [] := by
  unfold natChars
  by_cases h0 : n = 0
  · simp [h0]
  · simpa [h0] using Nat.digits_ne_nil_iff_ne_zero.mpr h0

/-- `grabDigits` splits exactly at the end of a digit run. -/
theorem grabDigits_split (ds : List Char) (hds : ∀ c ∈ ds, isDig c = true)
    (rest : List Char) (hrest : digitSafe rest = true) :
    grabDigits (ds ++ rest) = (ds, rest) := by
  induction ds with
  | nil =>
    cases rest with
    | nil => rfl
    | cons c t =>
      simp only [digitSafe, Bool.not_eq_true'] at hrest
      simp [grabDigits, hrest]
  | cons c t ih =>
    have hcd : isDig c = true := hds c (List.mem_cons_self c t)
    have tail := ih fun x hx => hds x (List.mem_cons_of_mem c hx)
    simp [grabDigits, hcd, tail]

/-- Folding digit characters back into a number, with an explicit accumulator. -/
theorem foldl_digChars (ds : List Nat) (hds : ∀ d ∈ ds, d < 10) :
    ∀ a : Nat, ((ds.map digChar).reverse).foldl (fun x c => x * 10 + digitVal c) a
      = a * 10 ^ ds.length + Nat.ofDigits 10 ds := by
  induction ds with
  | nil => intro a; simp
  | cons d t ih =>
    intro a
    have hd : d < 10 := hds d (by simp)
    have hstep : (((d :: t).map digChar).reverse) = (t.map digChar).reverse ++ [digChar d] := by
      simp
    rw [hstep, List.foldl_append, ih (fun x hx => hds x (List.mem_cons_of_mem d hx)) a]
    simp only [List.foldl_cons, List.foldl_nil, digitVal_digChar hd, Nat.ofDigits_cons,
      List.length_cons, pow_succ]
    ring

/-- The decimal round-trip on natural numbers. -/
theorem digitsToNat_natChars (n : Nat) : digitsToNat (natChars n) = n := by
  unfold digitsToNat natChars
  by_cases h0 : n = 0
  · simp [h0]
    decide
  · rw [if_neg h0, foldl_digChars _ (fun d hd => Nat.digits_lt_base (by omega) hd) 0]
    simp [Nat.ofDigits_digits]

/-- Scanning an escaped character undoes the escape. -/
theorem scanStr_escChar (c : Char) (rest : List Char) :
    scanStr (escChar c ++ rest) = (scanStr rest).map (fun p => (c :: p.1, p.2)) := by
  by_cases h1 : c = '"'
  · subst h1; simp [escChar, scanStr, unescChar]
  · by_cases h2 : c = '\\'
    · subst h2; simp [escChar, scanStr, unescChar]
    · by_cases h3 : c = '\n'
      · subst h3; simp [escChar, scanStr, unescChar]
      · by_cases h4 : c = '\t'
        · subst h4; simp [escChar, scanStr, unescChar]
        · by_cases h5 : c = '\r'
          · subst h5; simp [escChar, scanStr, unescChar]
          · have he : escChar c = [c] := by simp [escChar, h1, h2, h3, h4, h5]
            rw [he, List.singleton_append, scanStr.eq_def]
            simp [h1, h2]

/-- Scanning a fully escaped body stops exactly at the closing quote. -/
theorem scanStr_escBody (cs rest : List Char) :
    scanStr (escBody cs ++ '"' :: rest) = some (cs, rest) := by
  induction cs with
  | nil =>
    show scanStr ('"' :: rest) = some ([], rest)
    rw [scanStr.eq_def]
    rfl
  | cons c t ih =>
    rw [escBody, List.flatMap_cons, List.append_assoc, scanStr_escChar]
    rw [escBody] at ih
    simp [ih]

theorem wVal_pos (v : Json) : 1 ≤ wVal v := by
  cases v <;> simp [wVal]

/-- A digit character is none of the parser's dispatch or delimiter characters. -/
theorem isDig_ne {c : Char} (h : isDig c = true) :
    c ≠ ']' ∧ c ≠ 'n' ∧ c ≠ '}' ∧ c ≠ 't' ∧ c ≠ ','
      ∧ c ≠ 'f' ∧ c ≠ '-' ∧ c ≠ '"' ∧ c ≠ '[' ∧ c ≠ '{' := by
  have k : ∀ d : Char, isDig d = false → c ≠ d := by
    intro d hd he
    subst he
    rw [h] at hd
    cases hd
  exact ⟨k _ (by decide), k _ (by decide), k _ (by decide), k _ (by decide), k _ (by decide),
    k _ (by decide), k _ (by decide), k _ (by decide), k _ (by decide), k _ (by decide)⟩

/-- Rebuilding a string from its characters. -/
theorem strMk_toList (s : String) : String.mk s.toList = s := rfl

/-- Every serialized value starts with a character that closes neither an
array nor an object. -/
theorem stringify_head (v : Json) :
    ∃ c t, Json.stringifyChars v = c :: t ∧ c ≠ ']' ∧ c ≠ '}' := by
  cases v with
  | null => exact ⟨'n', ['u', 'l', 'l'], by simp [Json.stringifyChars], by decide, by decide⟩
  | bool b =>
    cases b with
    | true => exact ⟨'t', ['r', 'u', 'e'], by simp [Json.stringifyChars], by decide, by decide⟩
    | false =>
      exact ⟨'f', ['a', 'l', 's', 'e'], by simp [Json.stringifyChars], by decide, by decide⟩
  | str s =>
    exact ⟨'"', escBody s.toList ++ ['"'], by simp [Json.stringifyChars], by decide, by decide⟩
  | arr vs =>
    exact ⟨'[', Json.stringifyItems vs ++ [']'], by simp [Json.stringifyChars],
      by decide, by decide⟩
  | obj fs =>
    exact ⟨'{', Json.stringifyMembers fs ++ ['}'], by simp [Json.stringifyChars],
      by decide, by decide⟩
  | num i =>
    by_cases hi : i < 0
    · exact ⟨'-', natChars i.natAbs, by simp [Json.stringifyChars, intChars, hi],
        by decide, by decide⟩
    · obtain ⟨c0, t0, h0⟩ := List.exists_cons_of_ne_nil (natChars_ne_nil i.natAbs)
      have hc0 : isDig c0 = true := natChars_all_dig i.natAbs c0 (h0 ▸ List.mem_cons_self c0 t0)
      refine ⟨c0, t0, ?_, (isDig_ne hc0).1, (isDig_ne hc0).2.2.1⟩
      simp [Json.stringifyChars, intChars, hi, h0]

/-- A list headed by a non-digit is a safe continuation for number parsing. -/
theorem digitSafe_cons (c : Char) (h : isDig c = false) (r : List Char) :
    digitSafe (c :: r) = true := by
  simp [digitSafe, h]

mutual

/-- Parsing a serialized value consumes exactly its characters and recovers it,
whenever the remainder cannot extend a number and the fuel covers the value. -/
theorem rt_val : ∀ (v : Json) (fuel : Nat) (rest : List Char),
    wVal v ≤ fuel → digitSafe rest = true →
    parseJsonF fuel (Json.stringifyChars v ++ rest) = some (v, rest)
  | v, 0, _, hf, _ => absurd (le_trans (wVal_pos v) hf) (by omega)
  | .null, fuel + 1, rest, _, _ => by
    simp [Json.stringifyChars, parseJsonF]
  | .bool true, fuel + 1, rest, _, _ => by
    simp [Json.stringifyChars, parseJsonF]
  | .bool false, fuel + 1, rest, _, _ => by
    simp [Json.stringifyChars, parseJsonF]
  | .str s, fuel + 1, rest, _, _ => by
    have hshape : Json.stringifyChars (.str s) ++ rest
        = '"' :: (escBody s.toList ++ '"' :: rest) := by
      simp [Json.stringifyChars]
    rw [hshape]
    simp [parseJsonF, scanStr_escBody, strMk_toList]
  | .num i, fuel + 1, rest, _, hrest => by
    obtain ⟨c0, t0, h0⟩ := List.exists_cons_of_ne_nil (natChars_ne_nil i.natAbs)
    have hc0 : isDig c0 = true := natChars_all_dig i.natAbs c0 (h0 ▸ List.mem_cons_self c0 t0)
    have hg := grabDigits_split (natChars i.natAbs) (natChars_all_dig _) rest hrest
    have hv := digitsToNat_natChars i.natAbs
    rw [h0] at hg hv
    by_cases hi : i < 0
    · have hshape : Json.stringifyChars (.num i) ++ rest
          = '-' :: (c0 :: t0 ++ rest) := by
        simp [Json.stringifyChars, intChars, hi, h0]
      have hval : -(digitsToNat (c0 :: t0) : Int) = i := by rw [hv]; omega
      rw [hshape]
      simp only [parseJsonF]
      simp only [hg]
      simp [hval]
    · have hval : (digitsToNat (c0 :: t0) : Int) = i := by rw [hv]; omega
      obtain ⟨_, hn, _, ht, _, hf', hminus, hq, hlb, hlc⟩ := isDig_ne hc0
      have hshape : Json.stringifyChars (.num i) ++ rest
          = c0 :: (t0 ++ rest) := by
        simp [Json.stringifyChars, intChars, hi, h0]
      rw [hshape]
      simp only [parseJsonF]
      simp only [show (c0 :: (t0 ++ rest)) = c0 :: t0 ++ rest from rfl, hg]
      simp [hn, ht, hf', hq, hlb, hlc, hminus, hc0, hval]
  | .arr [], fuel + 1, rest, _, _ => by
    simp [Json.stringifyChars, Json.stringifyItems, parseJsonF]
  | .arr (v :: vs), fuel + 1, rest, hfuel, _ => by
    have hw : wItems (v :: vs) ≤ fuel := by simp [wVal] at hfuel; omega
    obtain ⟨c0, t0, h0, hne1, _⟩ := stringify_head v
    have h1 : ∃ t1, Json.stringifyItems (v :: vs) ++ ']' :: rest = c0 :: t1 := by
      cases vs with
      | nil => exact ⟨t0 ++ ']' :: rest, by simp [Json.stringifyItems, h0]⟩
      | cons u us =>
        exact ⟨t0 ++ ',' :: Json.stringifyItems (u :: us) ++ ']' :: rest,
          by simp [Json.stringifyItems, h0]⟩
    obtain ⟨t1, h1⟩ := h1
    have hshape : Json.stringifyChars (.arr (v :: vs)) ++ rest
        = '[' :: (Json.stringifyItems (v :: vs) ++ ']' :: rest) := by
      simp [Json.stringifyChars]
    rw [hshape, h1]
    simp only [parseJsonF]
    simp [hne1]
    rw [← h1, rt_items (v :: vs) fuel rest (by simp) hw]
  | .obj [], fuel + 1, rest, _, _ => by
    simp [Json.stringifyChars, Json.stringifyMembers, parseJsonF]
  | .obj (m :: fs), fuel + 1, rest, hfuel, _ => by
    have hw : wMembers (m :: fs) ≤ fuel := by simp [wVal] at hfuel; omega
    obtain ⟨k, v⟩ := m
    have h1 : ∃ t1, Json.stringifyMembers ((k, v) :: fs) ++ '}' :: rest = '"' :: t1 := by
      cases fs with
      | nil =>
        exact ⟨escBody k.toList ++ '"' :: ':' :: (Json.stringifyChars v ++ '}' :: rest),
          by simp [Json.stringifyMembers]⟩
      | cons m2 ms =>
        exact ⟨escBody k.toList ++ '"' :: ':' :: (Json.stringifyChars v
            ++ ',' :: (Json.stringifyMembers (m2 :: ms) ++ '}' :: rest)),
          by simp [Json.stringifyMembers]⟩
    obtain ⟨t1, h1⟩ := h1
    have hshape : Json.stringifyChars (.obj ((k, v) :: fs)) ++ rest
        = '{' :: (Json.stringifyMembers ((k, v) :: fs) ++ '}' :: rest) := by
      simp [Json.stringifyChars]
    rw [hshape, h1]
    simp only [parseJsonF]
    simp
    rw [← h1, rt_members ((k, v) :: fs) fuel rest (by simp) hw]

/-- Parsing serialized nonempty array elements up to `]` recovers them. -/
theorem rt_items : ∀ (vs : List Json) (fuel : Nat) (rest : List Char),
    vs ≠ [] → wItems vs ≤ fuel →
    parseItemsF fuel (Json.stringifyItems vs ++ ']' :: rest) = some (vs, rest)
  | [], _, _, h, _ => absurd rfl h
  | _ :: _, 0, _, _, hf => by simp [wItems] at hf
  | [v], fuel + 1, rest, _, hf => by
    have hv : wVal v ≤ fuel := by simp [wItems] at hf; omega
    simp only [Json.stringifyItems, parseItemsF]
    simp [rt_val v fuel (']' :: rest) hv (digitSafe_cons _ (by decide) _)]
  | v :: u :: us, fuel + 1, rest, _, hf => by
    have hv : wVal v ≤ fuel := by simp [wItems] at hf; omega
    have hus : wItems (u :: us) ≤ fuel := by simp [wItems] at hf ⊢; omega
    have hshape : Json.stringifyItems (v :: u :: us) ++ ']' :: rest
        = Json.stringifyChars v ++ ',' :: (Json.stringifyItems (u :: us) ++ ']' :: rest) := by
      simp [Json.stringifyItems]
    simp only [parseItemsF, hshape]
    simp [rt_val v fuel (',' :: (Json.stringifyItems (u :: us) ++ ']' :: rest)) hv
        (digitSafe_cons _ (by decide) _),
      rt_items (u :: us) fuel rest (by simp) hus]

/-- Parsing serialized nonempty object members up to `}` recovers them. -/
theorem rt_members : ∀ (fs : List (String × Json)) (fuel : Nat) (rest : List Char),
    fs ≠ [] → wMembers fs ≤ fuel →
    parseMembersF fuel (Json.stringifyMembers fs ++ '}' :: rest) = some (fs, rest)
  | [], _, _, h, _ => absurd rfl h
  | _ :: _, 0, _, _, hf => by simp [wMembers] at hf
  | [(k, v)], fuel + 1, rest, _, hf => by
    have hv : wVal v ≤ fuel := by simp [wMembers] at hf; omega
    have hshape : Json.stringifyMembers [(k, v)] ++ '}' :: rest
        = '"' :: (escBody k.toList ++ '"' :: (':' :: (Json.stringifyChars v ++ '}' :: rest))) := by
      simp [Json.stringifyMembers]
    simp only [parseMembersF, hshape]
    rw [scanStr_escBody]
    simp [rt_val v fuel ('}' :: rest) hv (digitSafe_cons _ (by decide) _), strMk_toList]
  | (k, v) :: m :: ms, fuel + 1, rest, _, hf => by
    have hv : wVal v ≤ fuel := by simp [wMembers] at hf; omega
    have hms : wMembers (m :: ms) ≤ fuel := by simp [wMembers] at hf ⊢; omega
    have hshape : Json.stringifyMembers ((k, v) :: m :: ms) ++ '}' :: rest
        = '"' :: (escBody k.toList ++ '"' :: (':' :: (Json.stringifyChars v
            ++ ',' :: (Json.stringifyMembers (m :: ms) ++ '}' :: rest)))) := by
      simp [Json.stringifyMembers]
    simp only [parseMembersF, hshape]
    rw [scanStr_escBody]
    simp [rt_val v fuel (',' :: (Json.stringifyMembers (m :: ms) ++ '}' :: rest)) hv
        (digitSafe_cons _ (by decide) _),
      rt_members (m :: ms) fuel rest (by simp) hms, strMk_toList]

end

mutual

/-- The parse fuel a value needs is at most its serialized length. -/
theorem wVal_le_len : ∀ v : Json, wVal v ≤ (Json.stringifyChars v).length
  | .null => by simp [wVal, Json.stringifyChars]
  | .bool true => by simp [wVal, Json.stringifyChars]
  | .bool false => by simp [wVal, Json.stringifyChars]
  | .num i => by
    have h := List.length_pos.mpr (natChars_ne_nil i.natAbs)
    by_cases hi : i < 0 <;> (simp [wVal, Json.stringifyChars, intChars, hi]; try omega)
  | .str s => by simp [wVal, Json.stringifyChars]
  | .arr vs => by
    have h := wItems_le_len vs
    simp [wVal, Json.stringifyChars]
    omega
  | .obj fs => by
    have h := wMembers_le_len fs
    simp [wVal, Json.stringifyChars]
    omega

/-- Item-list fuel is at most the serialized length plus one. -/
theorem wItems_le_len : ∀ vs : List Json, wItems vs ≤ (Json.stringifyItems vs).length + 1
  | [] => by simp [wItems, Json.stringifyItems]
  | [v] => by
    have h := wVal_le_len v
    simp [wItems, Json.stringifyItems]
    omega
  | v :: u :: us => by
    have h1 := wVal_le_len v
    have h2 := wItems_le_len (u :: us)
    simp [wItems, Json.stringifyItems] at h2 ⊢
    omega

/-- Member-list fuel is at most the serialized length plus one. -/
theorem wMembers_le_len :
    ∀ fs : List (String × Json), wMembers fs ≤ (Json.stringifyMembers fs).length + 1
  | [] => by simp [wMembers, Json.stringifyMembers]
  | [(k, v)] => by
    have h := wVal_le_len v
    simp [wMembers, Json.stringifyMembers]
    omega
  | (k, v) :: m :: ms => by
    have h1 := wVal_le_len v
    have h2 := wMembers_le_len (m :: ms)
    simp [wMembers, Json.stringifyMembers] at h2 ⊢
    omega

end

/-- The JSON codec round-trip: parsing a serialized value recovers it. -/
theorem parseJson_stringify (v : Json) : parseJson (Json.stringify v) = some v := by
  unfold parseJson Json.stringify
  have h1 : (String.mk v.stringifyChars).toList = v.stringifyChars := rfl
  rw [h1]
  have h2 := rt_val v (v.stringifyChars.length + 1) []
    (by have := wVal_le_len v; omega) (by decide)
  rw [List.append_nil] at h2
  rw [h2]

/-! ### Shared store lemmas -/
/-- A parsing driver hands back exactly the value the store serialized. -/
theorem driverRead_stringify (v : Json) :
    driverRead .parses (Json.stringify v) = v := by
  simp [driverRead, parseJson_stringify]

/-- Normalizing a non-string value returns it unchanged. -/
theorem normalizeField_of_ne_str (v : Json) (h : ∀ s, v ≠ Json.str s) :
    normalizeField v = some v := by
  cases v with
  | str s => exact absurd rfl (h s)
  | _ => rfl

/-- What the store reads back for a JSON column it wrote, normalized, is the
value it serialized -- under either driver behavior. -/
theorem normalizeField_driverRead (mode : DriverJson) (v : Json) (h : ∀ s, v ≠ Json.str s) :
    normalizeField (driverRead mode (Json.stringify v)) = some v := by
  cases mode with
  | parses => rw [driverRead_stringify]; exact normalizeField_of_ne_str v h
  | rawText => simp [driverRead, normalizeField, parseJson_stringify]

/-- The column names of a projected user row are exactly the selected ones. -/
theorem selectCols_fst (cols : List String) (u : UserRow) :
    (selectCols cols u).map Prod.fst = cols := by
  simp [selectCols, List.map_map, Function.comp_def]

/-! ### Claim theorems -/
/-- C5: for every JSON-valued field value, deserializing its serialization
recovers it; and the read-side normalization (`parse` when the value is a
string, identity otherwise), applied to what the driver hands back for a
store-written column -- already parsed or raw text -- yields the stored
structured value, and applying it twice yields the same value as applying it
once. -/
theorem c5_roundtrip_idempotent :
    (∀ v : Json, parseJson (Json.stringify v) = some v)
    ∧ (∀ (v : Json) (mode : DriverJson), (∀ s, v ≠ Json.str s) →
        normalizeField (driverRead mode (Json.stringify v)) = some v
        ∧ (normalizeField (driverRead mode (Json.stringify v))).bind normalizeField
            = normalizeField (driverRead mode (Json.stringify v))) := by
  refine ⟨parseJson_stringify, ?_⟩
  intro v mode h
  have h1 := normalizeField_driverRead mode v h
  refine ⟨h1, ?_⟩
  rw [h1]
  simpa using normalizeField_of_ne_str v h

/-- Witness for C5 at a concrete object value under the raw-text driver. -/
theorem c5_witness :
    parseJson (Json.stringify (Json.obj [("a", Json.arr [Json.null, Json.bool true])]))
      = some (Json.obj [("a", Json.arr [Json.null, Json.bool true])])
    ∧ normalizeField (driverRead .rawText (Json.stringify (Json.obj []))) = some (Json.obj []) :=
  ⟨c5_roundtrip_idempotent.1 _,
    (c5_roundtrip_idempotent.2 (Json.obj []) .rawText (fun _ h => Json.noConfusion h)).1⟩

/-- C7: on every entity store of both backends, delete succeeds and returns
`true` for every id, an absent id included, and deleting an absent id leaves
the table unchanged. (Lead/ChatSession/Event deletes are identical on the two
backends up to placeholder syntax and are modelled once each.) -/
theorem c7_delete_idempotent :
    ∀ (id : Nat) (db : LeadDb) (edb : EventDb) (cdb : ChatDb) (udb : UserDb),
      (deleteLead id db).1 = true ∧ (deleteEvent id edb).1 = true
      ∧ (deleteChatSession id cdb).1 = true ∧ (User_delete id udb).1 = true
      ∧ ((∀ r ∈ db.rows, r.id ≠ id) → (deleteLead id db).2 = db)
      ∧ ((∀ r ∈ edb.rows, r.id ≠ id) → (deleteEvent id edb).2 = edb)
      ∧ ((∀ r ∈ cdb.rows, r.id ≠ id) → (deleteChatSession id cdb).2 = cdb)
      ∧ ((∀ r ∈ udb.rows, r.id ≠ id) → (User_delete id udb).2 = udb) := by
  intro id db edb cdb udb
  refine ⟨rfl, rfl, rfl, rfl, ?_, ?_, ?_, ?_⟩
  · intro h
    have hf : db.rows.filter (fun r => r.id != id) = db.rows :=
      List.filter_eq_self.mpr (fun r hr => by simpa using h r hr)
    cases db
    simp_all [deleteLead]
  · intro h
    have hf : edb.rows.filter (fun r => r.id != id) = edb.rows :=
      List.filter_eq_self.mpr (fun r hr => by simpa using h r hr)
    cases edb
    simp_all [deleteEvent]
  · intro h
    have hf : cdb.rows.filter (fun r => r.id != id) = cdb.rows :=
      List.filter_eq_self.mpr (fun r hr => by simpa using h r hr)
    cases cdb
    simp_all [deleteChatSession]
  · intro h
    have hf : udb.rows.filter (fun r => r.id != id) = udb.rows :=
      List.filter_eq_self.mpr (fun r hr => by simpa using h r hr)
    cases udb
    simp_all [User_delete]

/-- Witness for C7: deleting the absent id 99999 from a one-event table
succeeds and mutates nothing. -/
theorem c7_witness :
    (deleteEvent 99999
        { rows := [{ id := 1, type := "widget_open", projectId := "p1", microsite := none,
                     payload := Json.stringify (Json.obj []),
                     location := Json.stringify Json.null, createdAt := 7 }],
          nextId := 2 }).2
      = { rows := [{ id := 1, type := "widget_open", projectId := "p1", microsite := none,
                     payload := Json.stringify (Json.obj []),
                     location := Json.stringify Json.null, createdAt := 7 }],
          nextId := 2 } :=
  (c7_delete_idempotent 99999 { rows := [], nextId := 1 } _
      { rows := [], nextId := 1 } { rows := [], nextId := 1 }).2.2.2.2.2.1
    (by decide)

/-- C8: when a pool already exists, a second `connect` call on either backend
returns exactly the existing pool, leaves the pool state unchanged (no new
pool is created), and does not re-run the connectivity probe. -/
theorem c8_connect_idempotent :
    ∀ (penv : PgEnv) (menv : MysqlEnv) (p fresh : Nat),
      connectPostgreSQL penv (some p) fresh = (.ok p, some p, false)
      ∧ connectMySQL menv (some p) fresh = (.ok p, some p, false) := by
  intro penv menv p fresh
  exact ⟨rfl, rfl⟩

/-- C10: with no pool (connect never called, or it failed before a pool was
assigned), `query` on either backend fails immediately with that backend's
distinct not-connected error; and `query` never creates or replaces a pool --
only an explicit `connect` call does. -/
theorem c10_not_connected :
    query_pg none = (.error "PostgreSQL not connected. Call connectPostgreSQL() first.", none)
    ∧ query_mysql none
        = (.error "MySQL not connected. Connection may have failed during initialization.", none)
    ∧ (∀ st : Option Nat, (query_pg st).2 = st ∧ (query_mysql st).2 = st) := by
  refine ⟨rfl, rfl, ?_⟩
  intro st
  cases st
  · exact ⟨rfl, rfl⟩
  · exact ⟨rfl, rfl⟩

/-- C3: `create` on both backends applies the per-field defaults
(status `"new"`, leadSource `"ChatWidget"`, metadata `{}`, conversation `[]`,
location null), serializes the JSON columns into the stored row, and returns
the normalized row: each JSON-valued column of the returned row is the
structured default-applied value itself, the new id and the creation
timestamp set. The mysql store returns the same row through its
last-insert-id fetch (the freshness hypotheses say no stored row already
carries the auto-increment id the insert will use). The chat-session create,
which normalizes explicitly, returns the same shape whenever the JSON-valued
inputs are not JS strings (per the data model they are objects/arrays). -/
theorem c3_create_defaults_normalized :
    ∀ (data : LeadData) (db : LeadDb) (now : Nat) (edata : EventData) (edb : EventDb)
      (cdata : ChatData) (cdb : ChatDb),
      (∀ r ∈ db.rows, r.id ≠ db.nextId) →
      (∀ r ∈ edb.rows, r.id ≠ edb.nextId) →
      (insertedLead data db now).status = strOrDefault data.status "new"
      ∧ (insertedLead data db now).leadSource = strOrDefault data.leadSource "ChatWidget"
      ∧ (insertedLead data db now).metadata = Json.stringify (jsOr data.metadata (Json.obj []))
      ∧ (insertedLead data db now).conversation
          = Json.stringify (jsOr data.conversation (Json.arr []))
      ∧ (insertedLead data db now).location = Json.stringify (jsOr data.location Json.null)
      ∧ (createLead_pg .parses data db now).1 =
          { id := db.nextId, phone := strOrNull data.phone, bhkType := data.bhkType,
            bhk := numOrNull data.bhk, microsite := data.microsite,
            leadSource := strOrDefault data.leadSource "ChatWidget",
            status := strOrDefault data.status "new",
            metadata := jsOr data.metadata (Json.obj []),
            conversation := jsOr data.conversation (Json.arr []),
            location := jsOr data.location Json.null,
            createdAt := now, updatedAt := now }
      ∧ (createLead_mysql .parses data db now).1 = some (createLead_pg .parses data db now).1
      ∧ (createEvent_pg .parses edata edb now).1 =
          { id := edb.nextId, type := edata.type, projectId := edata.projectId,
            microsite := strOrNull edata.microsite,
            payload := jsOr edata.payload (Json.obj []),
            location := jsOr edata.location Json.null,
            createdAt := now }
      ∧ (createEvent_mysql .parses edata edb now).1
          = some (createEvent_pg .parses edata edb now).1
      ∧ ((∀ s, jsOr cdata.conversation (Json.arr []) ≠ Json.str s) →
         (∀ s, jsOr cdata.metadata (Json.obj []) ≠ Json.str s) →
         (∀ s, jsOr cdata.location Json.null ≠ Json.str s) →
         (createChatSession_pg .parses cdata cdb now).1 =
           some { id := cdb.nextId, microsite := cdata.microsite,
                  projectId := strOrNull cdata.projectId,
                  leadId := (numOrNull (cdata.leadId.map Int.ofNat)).map Int.toNat,
                  phone := strOrNull cdata.phone, bhkType := strOrNull cdata.bhkType,
                  conversation := jsOr cdata.conversation (Json.arr []),
                  metadata := jsOr cdata.metadata (Json.obj []),
                  location := jsOr cdata.location Json.null,
                  createdAt := now, updatedAt := now }) := by
  intro data db now edata edb cdata cdb hfresh hefresh
  refine ⟨rfl, rfl, rfl, rfl, rfl, ?_, ?_, ?_, ?_, ?_⟩
  · simp [createLead_pg, insertedLead, LeadRow.toJs, driverRead_stringify]
  · have hfind : (db.rows ++ [insertedLead data db now]).find? (fun r => r.id == db.nextId)
        = some (insertedLead data db now) := by
      rw [List.find?_append]
      have h1 : db.rows.find? (fun r => r.id == db.nextId) = none :=
        List.find?_eq_none.mpr (fun x hx => by simpa using hfresh x hx)
      simp [h1, List.find?, insertedLead]
    simp [createLead_mysql, createLead_pg, hfind]
  · simp [createEvent_pg, insertedEvent, EventRow.toJs, driverRead_stringify]
  · have hfind : (edb.rows ++ [insertedEvent edata edb now]).find? (fun r => r.id == edb.nextId)
        = some (insertedEvent edata edb now) := by
      rw [List.find?_append]
      have h1 : edb.rows.find? (fun r => r.id == edb.nextId) = none :=
        List.find?_eq_none.mpr (fun x hx => by simpa using hefresh x hx)
      simp [h1, List.find?, insertedEvent]
    simp [createEvent_mysql, createEvent_pg, hfind]
  · intro hc hm hl
    simp [createChatSession_pg, insertedChat, ChatRow.toJs, driverRead_stringify,
      normalizeChatJs, normalizeField_of_ne_str _ hc, normalizeField_of_ne_str _ hm,
      normalizeField_of_ne_str _ hl]

/-- Witness for C3: `create Lead {microsite: "site-a", bhkType: "2BHK"}` on an
empty table returns a row with status `"new"`, metadata `{}`, conversation
`[]`, id 1 and createdAt set. -/
theorem c3_witness :
    (createLead_pg .parses { bhkType := "2BHK", microsite := "site-a" }
        { rows := [], nextId := 1 } 5).1 =
      { id := 1, phone := none, bhkType := "2BHK", bhk := none, microsite := "site-a",
        leadSource := "ChatWidget", status := "new", metadata := Json.obj [],
        conversation := Json.arr [], location := Json.null,
        createdAt := 5, updatedAt := 5 } :=
  (c3_create_defaults_normalized { bhkType := "2BHK", microsite := "site-a" }
      { rows := [], nextId := 1 } 5
      { type := "t", projectId := "p" } { rows := [], nextId := 1 }
      { microsite := "m" } { rows := [], nextId := 1 }
      (by simp) (by simp)).2.2.2.2.2.1

/-- C6: on every entity store of both backends, `update(id, {})` performs no
write, is not an error, and returns exactly what `getById(id)` returns, the
table (every row, `updated_at` included) unchanged; and a non-empty partial
update rewrites, in each matched row, exactly the columns present in the
input -- the effect on the table is a per-row `applyLeadUpdates`/
`applyChatUpdates` that leaves every non-provided field of the row as it
was, and rows with a different id untouched. -/
theorem c6_update_frame :
    ∀ (mode : DriverJson) (id : Nat) (db : LeadDb) (cdb : ChatDb) (udb : UserDb)
      (hash : String → String) (u : LeadUpdates) (cu : ChatUpdates)
      (r : LeadRow) (cr : ChatRow),
      updateLead_pg mode id {} db = (getLeadById mode id db, db)
      ∧ updateLead_mysql mode id {} db = (getLeadById mode id db, db)
      ∧ updateChatSession_pg mode id {} cdb = (getChatSessionById mode id cdb, cdb)
      ∧ updateChatSession_mysql mode id {} cdb = (getChatSessionById mode id cdb, cdb)
      ∧ User_update hash id {} udb = (User_findById id udb, udb)
      ∧ (u.nonEmpty = true → (updateLead_pg mode id u db).2.rows
           = db.rows.map (fun x => if x.id == id then applyLeadUpdates u x else x))
      ∧ (u.nonEmpty = true → (updateLead_mysql mode id u db).2.rows
           = db.rows.map (fun x => if x.id == id then applyLeadUpdates u x else x))
      ∧ (u.phone = none → (applyLeadUpdates u r).phone = r.phone)
      ∧ (u.bhkType = none → (applyLeadUpdates u r).bhkType = r.bhkType)
      ∧ (u.bhk = none → (applyLeadUpdates u r).bhk = r.bhk)
      ∧ (u.status = none → (applyLeadUpdates u r).status = r.status)
      ∧ (u.metadata = none → (applyLeadUpdates u r).metadata = r.metadata)
      ∧ (u.conversation = none → (applyLeadUpdates u r).conversation = r.conversation)
      ∧ (u.location = none → (applyLeadUpdates u r).location = r.location)
      ∧ (applyLeadUpdates u r).id = r.id
      ∧ (applyLeadUpdates u r).microsite = r.microsite
      ∧ (applyLeadUpdates u r).leadSource = r.leadSource
      ∧ (applyLeadUpdates u r).createdAt = r.createdAt
      ∧ (applyLeadUpdates u r).updatedAt = r.updatedAt
      ∧ (cu.conversation = none → (applyChatUpdates cu cr).conversation = cr.conversation)
      ∧ (cu.metadata = none → (applyChatUpdates cu cr).metadata = cr.metadata)
      ∧ (cu.location = none → (applyChatUpdates cu cr).location = cr.location)
      ∧ (applyChatUpdates cu cr).id = cr.id
      ∧ (applyChatUpdates cu cr).microsite = cr.microsite
      ∧ (applyChatUpdates cu cr).leadId = cr.leadId
      ∧ (applyChatUpdates cu cr).phone = cr.phone
      ∧ (applyChatUpdates cu cr).createdAt = cr.createdAt
      ∧ (applyChatUpdates cu cr).updatedAt = cr.updatedAt := by
  intro mode id db cdb udb hash u cu r cr
  refine ⟨rfl, rfl, rfl, rfl, rfl, ?p1, ?p2, ?p3, ?p4, ?p5, ?p6, ?p7, ?p8, ?p9, rfl, rfl,
    rfl, rfl, rfl, ?p10, ?p11, ?p12, rfl, rfl, rfl, rfl, rfl, rfl⟩
  · intro h; simp [updateLead_pg, h]
  · intro h; simp [updateLead_mysql, h]
  · intro h; simp [applyLeadUpdates, h]
  · intro h; simp [applyLeadUpdates, h]
  · intro h; simp [applyLeadUpdates, h]
  · intro h; simp [applyLeadUpdates, h]
  · intro h; simp [applyLeadUpdates, h]
  · intro h; simp [applyLeadUpdates, h]
  · intro h; simp [applyLeadUpdates, h]
  · intro h; simp [applyChatUpdates, h]
  · intro h; simp [applyChatUpdates, h]
  · intro h; simp [applyChatUpdates, h]

/-- Witness for C6: a status-only update on a one-row table rewrites the
status and nothing else; `update(id, {})` returns `getById`'s row with the
table unchanged. -/
theorem c6_witness :
    updateLead_pg .parses 1 {}
        { rows := [{ id := 1, phone := none, bhkType := "2BHK", bhk := none,
                     microsite := "m", leadSource := "ChatWidget", status := "new",
                     metadata := Json.stringify (Json.obj []),
                     conversation := Json.stringify (Json.arr []),
                     location := Json.stringify Json.null,
                     createdAt := 3, updatedAt := 3 }], nextId := 2 }
      = (getLeadById .parses 1
          { rows := [{ id := 1, phone := none, bhkType := "2BHK", bhk := none,
                       microsite := "m", leadSource := "ChatWidget", status := "new",
                       metadata := Json.stringify (Json.obj []),
                       conversation := Json.stringify (Json.arr []),
                       location := Json.stringify Json.null,
                       createdAt := 3, updatedAt := 3 }], nextId := 2 },
         { rows := [{ id := 1, phone := none, bhkType := "2BHK", bhk := none,
                      microsite := "m", leadSource := "ChatWidget", status := "new",
                      metadata := Json.stringify (Json.obj []),
                      conversation := Json.stringify (Json.arr []),
                      location := Json.stringify Json.null,
                      createdAt := 3, updatedAt := 3 }], nextId := 2 })
    ∧ (applyLeadUpdates { status := some "contacted" }
        { id := 1, phone := some "123", bhkType := "2BHK", bhk := none,
          microsite := "m", leadSource := "ChatWidget", status := "new",
          metadata := Json.stringify (Json.obj []),
          conversation := Json.stringify (Json.arr []),
          location := Json.stringify Json.null,
          createdAt := 3, updatedAt := 3 }).phone = some "123" :=
  ⟨(c6_update_frame .parses 1
      { rows := [{ id := 1, phone := none, bhkType := "2BHK", bhk := none,
                   microsite := "m", leadSource := "ChatWidget", status := "new",
                   metadata := Json.stringify (Json.obj []),
                   conversation := Json.stringify (Json.arr []),
                   location := Json.stringify Json.null,
                   createdAt := 3, updatedAt := 3 }], nextId := 2 }
      { rows := [], nextId := 1 } { rows := [], nextId := 1 } (fun s => s)
      { status := some "contacted" } {}
      { id := 1, phone := some "123", bhkType := "2BHK", bhk := none,
        microsite := "m", leadSource := "ChatWidget", status := "new",
        metadata := Json.stringify (Json.obj []),
        conversation := Json.stringify (Json.arr []),
        location := Json.stringify Json.null, createdAt := 3, updatedAt := 3 }
      { id := 1, microsite := "m", projectId := none, leadId := none, phone := none,
        bhkType := none, conversation := Json.stringify (Json.arr []),
        metadata := Json.stringify (Json.obj []),
        location := Json.stringify Json.null, createdAt := 3, updatedAt := 3 }).1,
   (c6_update_frame .parses 1
      { rows := [{ id := 1, phone := none, bhkType := "2BHK", bhk := none,
                   microsite := "m", leadSource := "ChatWidget", status := "new",
                   metadata := Json.stringify (Json.obj []),
                   conversation := Json.stringify (Json.arr []),
                   location := Json.stringify Json.null,
                   createdAt := 3, updatedAt := 3 }], nextId := 2 }
      { rows := [], nextId := 1 } { rows := [], nextId := 1 } (fun s => s)
      { status := some "contacted" } {}
      { id := 1, phone := some "123", bhkType := "2BHK", bhk := none,
        microsite := "m", leadSource := "ChatWidget", status := "new",
        metadata := Json.stringify (Json.obj []),
        conversation := Json.stringify (Json.arr []),
        location := Json.stringify Json.null, createdAt := 3, updatedAt := 3 }
      { id := 1, microsite := "m", projectId := none, leadId := none, phone := none,
        bhkType := none, conversation := Json.stringify (Json.arr []),
        metadata := Json.stringify (Json.obj []),
        location := Json.stringify Json.null, createdAt := 3, updatedAt := 3
        }).2.2.2.2.2.2.2.1 rfl⟩

/-- C9 counterexample: `User.findByUsername` selects and returns
`password_hash` -- its result row for an existing user carries the
`password_hash` column, so not every User store operation hides it. -/
theorem c9_counterexample :
    ((User_findByUsername "admin" c9Db).getD []).map Prod.fst
      = ["id", "username", "password_hash", "email", "role", "created_at", "updated_at"] := by
  decide

/-- C9 as amended: every User store operation except `findByUsername`
(`create`, `findById`, `findAll`, `update`; `delete` returns only `true`)
returns rows without the `password_hash` field; `findByUsername` alone
returns it (the hash its caller verifies the password against). -/
theorem c9_amended_no_hash :
    ∀ (hash : String → String) (username password : String) (email : Option String)
      (role : Option String) (db : UserDb) (now : Nat) (id : Nat) (u : UserUpdates)
      (row : List (String × Json)),
      ((User_create hash username password email role db now).1.map Prod.fst).contains
          "password_hash" = false
      ∧ (User_findById id db = some row →
          (row.map Prod.fst).contains "password_hash" = false)
      ∧ (∀ r ∈ User_findAll db, (r.map Prod.fst).contains "password_hash" = false)
      ∧ ((User_update hash id u db).1 = some row →
          (row.map Prod.fst).contains "password_hash" = false)
      ∧ (User_findByUsername username db = some row →
          (row.map Prod.fst).contains "password_hash" = true) := by
  intro hash username password email role db now id u row
  refine ⟨?_, ?_, ?_, ?_, ?_⟩
  · rw [show (User_create hash username password email role db now).1.map Prod.fst
        = ["id", "username", "email", "role", "created_at", "updated_at"] from
      selectCols_fst _ _]
    decide
  · intro h
    obtain ⟨x, _, hx⟩ := Option.map_eq_some'.mp h
    rw [← hx, selectCols_fst]
    decide
  · intro r hr
    obtain ⟨x, _, hx⟩ := List.mem_map.mp hr
    rw [← hx, selectCols_fst]
    decide
  · intro h
    unfold User_update at h
    by_cases hne : u.nonEmpty = false
    · rw [if_pos hne] at h
      simp only at h
      obtain ⟨x, _, hx⟩ := Option.map_eq_some'.mp h
      rw [← hx, selectCols_fst]
      decide
    · rw [if_neg hne] at h
      simp only at h
      obtain ⟨x, _, hx⟩ := Option.map_eq_some'.mp h
      rw [← hx, selectCols_fst]
      decide
  · intro h
    obtain ⟨x, _, hx⟩ := Option.map_eq_some'.mp h
    rw [← hx, selectCols_fst]
    decide

/-- Witness for C9's amended claim: concrete calls on `c9Db`. -/
theorem c9_witness :
    ((User_create (fun s => s) "bob" "pw" none none c9Db 1).1.map Prod.fst).contains
        "password_hash" = false
    ∧ ((((User_findById 1 c9Db).getD []).map Prod.fst).contains "password_hash" = false) :=
  ⟨(c9_amended_no_hash (fun s => s) "bob" "pw" none none c9Db 1 1 {} []).1,
   (c9_amended_no_hash (fun s => s) "bob" "pw" none none c9Db 1 1 {}
       ((User_findById 1 c9Db).getD [])).2.1 (by rfl)⟩

/-- C2 counterexample: the claimed clamping does not hold. On the postgres
lead store a negative requested limit is passed through to SQL unchanged and
the list call errors (`none`), instead of resolving to the default; a limit
above 1000 resolves to itself, not to 1000; and on the mysql store a
requested limit of 0 or negative resolves to 1, not to the default 50. -/
theorem c2_counterexample :
    listLeads_pg .parses { limit := .num (-5) } c2Db = none
    ∧ pgResolve (.num 2000) 50 = 2000
    ∧ pgResolve (.num (-5)) 50 = -5
    ∧ mysqlResolveLimit (.num 0) = 1
    ∧ mysqlResolveLimit (.num (-7)) = 1 := by
  exact ⟨rfl, by decide, by decide, by decide, by decide⟩

/-- C2 as amended: the two backends resolve pagination differently. The
postgres list operations (leads and chat sessions, default 50; event
listings on both backends, default 100) use `Number(x) || dflt`: a missing,
non-numeric or zero value becomes the default and any other number -- negative
or above 1000 included -- passes through unclamped. The mysql lead and
chat-session list operations use `parseInt` with clamping: missing, null or
non-numeric values become the defaults (limit 50, skip 0), and numbers clamp
to `[1, 1000]` for limit (so 0 and negatives resolve to 1) and to `≥ 0` for
skip. -/
theorem c2_amended_clamping :
    ∀ (x : JsIn) (n : Int),
      pgResolve .absent 50 = 50
      ∧ pgResolve (.num 0) 50 = 50
      ∧ (jsNumber x = none → pgResolve x 50 = 50 ∧ pgResolve x 100 = 100 ∧ pgResolve x 0 = 0)
      ∧ (n ≠ 0 → pgResolve (.num n) 50 = n ∧ pgResolve (.num n) 100 = n
          ∧ pgResolve (.num n) 0 = n)
      ∧ mysqlResolveLimit .absent = 50
      ∧ mysqlResolveLimit .nullv = 50
      ∧ (jsParseInt x = none → mysqlResolveLimit x = 50 ∧ mysqlResolveSkip x = 0)
      ∧ mysqlResolveLimit (.num n) = max 1 (min 1000 n)
      ∧ mysqlResolveSkip (.num n) = max 0 n
      ∧ mysqlResolveSkip .absent = 0
      ∧ mysqlResolveSkip .nullv = 0 := by
  intro x n
  refine ⟨by decide, by decide, ?_, ?_, by decide, by decide, ?_, by simp [mysqlResolveLimit, jsParseInt],
    by simp [mysqlResolveSkip, jsParseInt], by decide, by decide⟩
  · intro h
    exact ⟨by simp [pgResolve, h], by simp [pgResolve, h], by simp [pgResolve, h]⟩
  · intro h
    exact ⟨by simp [pgResolve, jsNumber, h], by simp [pgResolve, jsNumber, h],
      by simp [pgResolve, jsNumber, h]⟩
  · intro h
    cases x with
    | absent => exact ⟨by decide, by decide⟩
    | nullv => exact ⟨by decide, by decide⟩
    | num m => simp [jsParseInt] at h
    | str s => exact ⟨by simp [mysqlResolveLimit, h], by simp [mysqlResolveSkip, h]⟩

/-- Witness for C2's amended claim: 2000 clamps to 1000 on mysql, stays 2000
on postgres; a non-numeric limit falls back to the default on both. -/
theorem c2_witness :
    mysqlResolveLimit (.num 2000) = max 1 (min 1000 2000)
    ∧ pgResolve (.num 2000) 50 = 2000
    ∧ pgResolve (.str "abc") 50 = 50 := by
  refine ⟨(c2_amended_clamping (.num 2000) 2000).2.2.2.2.2.2.2.1, ?_, ?_⟩
  · exact ((c2_amended_clamping (.str "abc") 2000).2.2.2.1 (by decide)).1
  · exact ((c2_amended_clamping (.str "abc") 2000).2.2.1 (by decide)).1

/-- `listLeads` (postgres) computes `total` as the count of the rows the
WHERE clause matches, the page queries notwithstanding. -/
theorem listLeads_pg_total (mode : DriverJson) (f : LeadFilters) (db : LeadDb)
    (res : ListResult LeadRowJs) (h : listLeads_pg mode f db = some res) :
    res.total = (db.rows.filter (leadMatches f)).length := by
  unfold listLeads_pg at h
  simp only [bind, Option.bind_eq_some] at h
  obtain ⟨page, hA, h2⟩ := h
  obtain ⟨items, hB, h3⟩ := h2
  cases h3
  rfl

/-- `listLeads` (mysql) likewise. -/
theorem listLeads_mysql_total (mode : DriverJson) (f : LeadFilters) (db : LeadDb)
    (res : ListResult LeadRowJs) (h : listLeads_mysql mode f db = some res) :
    res.total = (db.rows.filter (leadMatches f)).length := by
  unfold listLeads_mysql at h
  simp only [bind, Option.bind_eq_some] at h
  obtain ⟨page, hA, h2⟩ := h
  obtain ⟨items, hB, h3⟩ := h2
  cases h3
  rfl

/-- `listChatSessions` (postgres) likewise. -/
theorem listChats_pg_total (mode : DriverJson) (f : ChatFilters) (db : ChatDb)
    (res : ListResult ChatRowJs) (h : listChatSessions_pg mode f db = some res) :
    res.total = (db.rows.filter (chatMatches f)).length := by
  unfold listChatSessions_pg at h
  simp only [bind, Option.bind_eq_some] at h
  obtain ⟨page, hA, h2⟩ := h
  obtain ⟨items, hB, h3⟩ := h2
  cases h3
  rfl

/-- `listChatSessions` (mysql) likewise. -/
theorem listChats_mysql_total (mode : DriverJson) (f : ChatFilters) (db : ChatDb)
    (res : ListResult ChatRowJs) (h : listChatSessions_mysql mode f db = some res) :
    res.total = (db.rows.filter (chatMatches f)).length := by
  unfold listChatSessions_mysql at h
  simp only [bind, Option.bind_eq_some] at h
  obtain ⟨page, hA, h2⟩ := h
  obtain ⟨items, hB, h3⟩ := h2
  cases h3
  rfl

/-- C1 counterexample: the Event listing operations of both backends return
only the page, with no total. Two event tables whose filter-match counts
differ (5 vs. 2) produce the very same `listEvents` output at limit 2, so no
total can be recovered from the result, and the claimed
`{items, total}` shape with `total` equal to the match count fails for the
Event listing. -/
theorem c1_counterexample :
    listEvents_pg .parses c1Filters c1Db1 = listEvents_pg .parses c1Filters c1Db2
    ∧ listEvents_mysql .parses c1Filters c1Db1 = listEvents_mysql .parses c1Filters c1Db2
    ∧ (c1Db1.rows.filter (eventMatches c1Filters)).length = 5
    ∧ (c1Db2.rows.filter (eventMatches c1Filters)).length = 2 :=
  ⟨rfl, rfl, by decide, by decide⟩

/-- C1 as amended: the Lead and ChatSession list operations of both backends
return `{items, total}` with `total` equal to the number of rows satisfying
the compiled filter predicate directly -- computed from the same WHERE clause
as the page and independent of `limit`/`skip`; the Event listing operations
of both backends return only the page array, with no total. -/
theorem c1_amended_total_invariant :
    ∀ (mode : DriverJson) (f : LeadFilters) (db : LeadDb) (cf : ChatFilters) (cdb : ChatDb),
      (∀ res, listLeads_pg mode f db = some res →
        res.total = (db.rows.filter (leadMatches f)).length)
      ∧ (∀ res, listLeads_mysql mode f db = some res →
        res.total = (db.rows.filter (leadMatches f)).length)
      ∧ (∀ res, listChatSessions_pg mode cf cdb = some res →
        res.total = (cdb.rows.filter (chatMatches cf)).length)
      ∧ (∀ res, listChatSessions_mysql mode cf cdb = some res →
        res.total = (cdb.rows.filter (chatMatches cf)).length)
      ∧ (∀ l1 s1 l2 s2 r1 r2,
          listLeads_pg mode { f with limit := l1, skip := s1 } db = some r1 →
          listLeads_pg mode { f with limit := l2, skip := s2 } db = some r2 →
          r1.total = r2.total)
      ∧ (∀ l1 s1 l2 s2 r1 r2,
          listLeads_mysql mode { f with limit := l1, skip := s1 } db = some r1 →
          listLeads_mysql mode { f with limit := l2, skip := s2 } db = some r2 →
          r1.total = r2.total)
      ∧ (∀ l1 s1 l2 s2 r1 r2,
          listChatSessions_pg mode { cf with limit := l1, skip := s1 } cdb = some r1 →
          listChatSessions_pg mode { cf with limit := l2, skip := s2 } cdb = some r2 →
          r1.total = r2.total)
      ∧ (∀ l1 s1 l2 s2 r1 r2,
          listChatSessions_mysql mode { cf with limit := l1, skip := s1 } cdb = some r1 →
          listChatSessions_mysql mode { cf with limit := l2, skip := s2 } cdb = some r2 →
          r1.total = r2.total) := by
  intro mode f db cf cdb
  refine ⟨fun res h => listLeads_pg_total mode f db res h,
    fun res h => listLeads_mysql_total mode f db res h,
    fun res h => listChats_pg_total mode cf cdb res h,
    fun res h => listChats_mysql_total mode cf cdb res h, ?_, ?_, ?_, ?_⟩
  · intro l1 s1 l2 s2 r1 r2 h1 h2
    rw [listLeads_pg_total mode _ db r1 h1, listLeads_pg_total mode _ db r2 h2]
    rfl
  · intro l1 s1 l2 s2 r1 r2 h1 h2
    rw [listLeads_mysql_total mode _ db r1 h1, listLeads_mysql_total mode _ db r2 h2]
    rfl
  · intro l1 s1 l2 s2 r1 r2 h1 h2
    rw [listChats_pg_total mode _ cdb r1 h1, listChats_pg_total mode _ cdb r2 h2]
    rfl
  · intro l1 s1 l2 s2 r1 r2 h1 h2
    rw [listChats_mysql_total mode _ cdb r1 h1, listChats_mysql_total mode _ cdb r2 h2]
    rfl

/-- Witness for C1's amended claim: on a concrete one-row table,
`listLeads` returns `total = 1` whatever the limit. -/
theorem c1_witness :
    ∃ r1 r2 : ListResult LeadRowJs,
      listLeads_pg .parses { limit := .num 1 } c2Db = some r1
      ∧ listLeads_pg .parses { limit := .num 7 } c2Db = some r2
      ∧ r1.total = r2.total := by
  refine ⟨_, _, rfl, rfl, ?_⟩
  exact (c1_amended_total_invariant .parses {} c2Db {} { rows := [], nextId := 1 }).2.2.2.2.1
    (.num 1) .absent (.num 7) .absent _ _ rfl rfl

/-- A statement loop over an engine that accepts everything executes every
statement the splitter kept. -/
theorem runSchema_allOk (skips : List Char → Bool) (l : List (List Char)) :
    runSchemaStatements skips (fun _ => none) l = .ok l := by
  induction l with
  | nil => rfl
  | cons s rest ih => simp [runSchemaStatements, ih, Except.map]

set_option maxRecDepth 40000 in
/-- C4, the code bug: the canonical schema text contains the
`CREATE TABLE IF NOT EXISTS users` statement (and five sibling tables), but
because `initializeSchema`'s splitter drops every `;`-segment that merely
starts with a `--` comment line, none of the executed statements contains any
`CREATE TABLE` at all -- the bootstrap cannot create the tables. The loop
semantics around a statement error are as specified: an
`already exists` failure is skipped, any other failure aborts. -/
theorem c4_schema_split_bug :
    containsSub pgSchemaText "CREATE TABLE IF NOT EXISTS users".toList = true
    ∧ (schemaStatements pgSchemaText).all (fun s => !containsSub s "CREATE TABLE".toList) = true
    ∧ (schemaStatements pgSchemaText).length = 15
    ∧ initializeSchema_pg (fun _ => none) pgSchemaText = .ok (schemaStatements pgSchemaText)
    ∧ runSchemaStatements pgSkipsError
        (fun s => if s = "A".toList then some "relation A already exists".toList else none)
        ["A".toList, "B".toList] = .ok ["B".toList]
    ∧ runSchemaStatements pgSkipsError
        (fun s => if s = "A".toList then some "syntax error".toList else none)
        ["A".toList, "B".toList] = .error "syntax error".toList := by
  refine ⟨by decide, by decide, by decide, runSchema_allOk _ _, by rfl, by rfl⟩
